import Mathlib

/-
  Verification development for the k3s-mcp-server repository.

  The repository contains two variants of the server:
    * `k3s_mcp_server/server.py` at the repository top level, embedded below in
      namespace `TopLevel`;
    * `src/k3s_mcp_server/server.py`, embedded below in namespace `SrcLayout`.

  The kubernetes python client (`core_v1` / `apps_v1` / `VersionApi`) is the
  external collaborator; it is modelled as an oracle (`Cluster`) mapping each
  API call to either a result object or an `ApiErr` (an `ApiException` whose
  `reason` field and `str()` rendering are both recorded).  Every API call a
  client method performs is recorded in a trace (`List CapCall`), so theorems
  can speak about which cluster operations a request triggered.

  The yaml library is external as well and is modelled as an oracle `Yaml`.

  Python exceptions are modelled by `PyErr` and functions that can raise run
  in `Res`, a pair of an `Except PyErr` result and the trace of API calls
  issued so far.  The MCP argument bag is a list of (key, JSON value) pairs;
  `arguments[k]` raises `KeyError k` when the key is absent and
  `arguments.get(k)` returns an option, exactly as in Python.  The embedding
  types the values flowing into the client methods at the call boundary
  (`asStr`, `asInt`, ...): a well-typed bag behaves exactly as the Python
  code; the typed boundary is never exercised by the theorems below, whose
  inputs carry values of the declared schema types.
-/

namespace K3s

/- JSON-like dynamic values (the payloads of the MCP protocol and the values
produced by `yaml.safe_load`).  A mutual inductive is used so that all
functions below are structurally recursive and reduce definitionally. -/
mutual

inductive Json where
  | null
  | bool (b : Bool)
  | int (n : Int)
  | str (s : String)
  | arr (xs : JList)
  | obj (kvs : JObj)

inductive JList where
  | nil
  | cons (hd : Json) (tl : JList)

inductive JObj where
  | nil
  | cons (k : String) (v : Json) (tl : JObj)

end

def JList.ofList : List Json → JList
  | [] => .nil
  | x :: xs => .cons x (ofList xs)

def JObj.ofList : List (String × Json) → JObj
  | [] => .nil
  | (k, v) :: xs => .cons k v (ofList xs)

def JObj.lookup : JObj → String → Option Json
  | .nil, _ => none
  | .cons k v tl, key => if k = key then some v else tl.lookup key

/-- Python dict assignment `d[k] = v`: replace in place when the key exists,
append otherwise. -/
def JObj.set : JObj → String → Json → JObj
  | .nil, k, v => .cons k v .nil
  | .cons k0 v0 tl, k, v =>
      if k0 = k then .cons k0 v tl else .cons k0 v0 (tl.set k v)

/-- Python truthiness of a value parsed from JSON/YAML. -/
def Json.truthy : Json → Bool
  | .null => false
  | .bool b => b
  | .int n => n != 0
  | .str s => s != ""
  | .arr .nil => false
  | .arr _ => true
  | .obj .nil => false
  | .obj _ => true

/-- `d.get(k)` on a parsed mapping: `None` (modelled `Json.null`) when the key
is absent or the value is not a mapping. -/
def Json.get : Json → String → Json
  | .obj kvs, k => (kvs.lookup k).getD .null
  | _, _ => .null

/-- `d.get(k, default)` on a parsed mapping. -/
def Json.getD : Json → String → Json → Json
  | .obj kvs, k, d => (kvs.lookup k).getD d
  | _, _, d => d

mutual

/-- Python `str()` of a value parsed from JSON/YAML (used by f-strings). -/
def Json.pyStr : Json → String
  | .null => "None"
  | .bool true => "True"
  | .bool false => "False"
  | .int n => toString n
  | .str s => s
  | .arr xs => "[" ++ JList.pyReprItems xs ++ "]"
  | .obj kvs => "\x7b" ++ JObj.pyReprItems kvs ++ "\x7d"

/-- Python `repr()` of a value parsed from JSON/YAML (`repr` and `str` agree
except on strings, which `repr` quotes). -/
def Json.pyRepr : Json → String
  | .null => "None"
  | .bool true => "True"
  | .bool false => "False"
  | .int n => toString n
  | .str s => "\x27" ++ s ++ "\x27"
  | .arr xs => "[" ++ JList.pyReprItems xs ++ "]"
  | .obj kvs => "\x7b" ++ JObj.pyReprItems kvs ++ "\x7d"

def JList.pyReprItems : JList → String
  | .nil => ""
  | .cons hd .nil => hd.pyRepr
  | .cons hd tl => hd.pyRepr ++ ", " ++ JList.pyReprItems tl

def JObj.pyReprItems : JObj → String
  | .nil => ""
  | .cons k v .nil => "\x27" ++ k ++ "\x27: " ++ v.pyRepr
  | .cons k v tl => "\x27" ++ k ++ "\x27: " ++ v.pyRepr ++ ", " ++ JObj.pyReprItems tl

end

/-- JSON string escaping as performed by `json.dumps` (the escapes the
payloads of this repository can contain). -/
def escChar (c : Char) : List Char :=
  if c = '\\' then ['\\', '\\']
  else if c = '"' then ['\\', '"']
  else if c = '\n' then ['\\', 'n']
  else if c = '\t' then ['\\', 't']
  else if c = '\r' then ['\\', 'r']
  else [c]

def escString (s : String) : String := String.mk (s.data.flatMap escChar)

def spaces : Nat → String
  | 0 => ""
  | n + 1 => " " ++ spaces n

mutual

/-- `json.dumps(x, indent=2)`, at nesting level `lvl`. -/
def dumpsAux : Nat → Json → String
  | _, .null => "null"
  | _, .bool true => "true"
  | _, .bool false => "false"
  | _, .int n => toString n
  | _, .str s => "\"" ++ escString s ++ "\""
  | _, .arr .nil => "[]"
  | lvl, .arr xs => "[\n" ++ dumpsList (lvl + 1) xs ++ "\n" ++ spaces (2 * lvl) ++ "]"
  | _, .obj .nil => "\x7b\x7d"
  | lvl, .obj kvs => "\x7b\n" ++ dumpsObj (lvl + 1) kvs ++ "\n" ++ spaces (2 * lvl) ++ "\x7d"

def dumpsList : Nat → JList → String
  | _, .nil => ""
  | lvl, .cons hd .nil => spaces (2 * lvl) ++ dumpsAux lvl hd
  | lvl, .cons hd tl => spaces (2 * lvl) ++ dumpsAux lvl hd ++ ",\n" ++ dumpsList lvl tl

def dumpsObj : Nat → JObj → String
  | _, .nil => ""
  | lvl, .cons k v .nil => spaces (2 * lvl) ++ "\"" ++ escString k ++ "\": " ++ dumpsAux lvl v
  | lvl, .cons k v tl =>
      spaces (2 * lvl) ++ "\"" ++ escString k ++ "\": " ++ dumpsAux lvl v ++ ",\n" ++ dumpsObj lvl tl

end

/-- `json.dumps(x, indent=2)`. -/
def jsonDumps (j : Json) : String := dumpsAux 0 j

def Json.ofOptStr : Option String → Json
  | none => .null
  | some s => .str s

def Json.ofOptInt : Option Int → Json
  | none => .null
  | some n => .int n

def Json.ofStrMap (m : List (String × String)) : Json :=
  .obj (JObj.ofList (m.map fun kv => (kv.1, Json.str kv.2)))

/-- Python exceptions raised by the code of this repository. -/
inductive PyErr where
  | keyError (k : String)
  | typeErr (msg : String)
  | valueError (msg : String)
  | exn (msg : String)

/-- Python `str(e)` for the exceptions above (`str` of a `KeyError` is the
`repr` of the missing key). -/
def pyStrErr : PyErr → String
  | .keyError k => "\x27" ++ k ++ "\x27"
  | .typeErr m => m
  | .valueError m => m
  | .exn m => m

/-- An `ApiException` from the kubernetes client: `reason` is `e.reason` and
`full` is `str(e)`. -/
structure ApiErr where
  reason : String
  full : String

/- ----- kubernetes API objects: exactly the fields the repository reads ----- -/

structure CondObj where
  type : String
  status : String
  reason : Option String
  message : Option String

structure ContainerObj where
  name : String
  image : String

structure ContainerStatusObj where
  name : String
  ready : Bool
  restart_count : Int

structure MetaObj where
  name : String
  nsp : Option String
  labels : List (String × String)
  creation_timestamp : Option String

structure PodSpecObj where
  node_name : Option String
  containers : List ContainerObj

structure PodStatusObj where
  phase : Option String
  pod_ip : Option String
  host_ip : Option String
  conditions : Option (List CondObj)
  container_statuses : Option (List ContainerStatusObj)

structure PodObj where
  metadata : MetaObj
  spec : PodSpecObj
  status : PodStatusObj

structure LabelSelectorObj where
  match_labels : Option (List (String × String))

structure StrategyObj where
  type : Option String

structure PodTemplateObj where
  spec : PodSpecObj

structure DeploymentSpecObj where
  replicas : Option Int
  selector : LabelSelectorObj
  strategy : StrategyObj
  template : PodTemplateObj

structure DeploymentStatusObj where
  replicas : Option Int
  ready_replicas : Option Int
  available_replicas : Option Int
  updated_replicas : Option Int
  unavailable_replicas : Option Int
  conditions : Option (List CondObj)

structure DeploymentObj where
  metadata : MetaObj
  spec : DeploymentSpecObj
  status : DeploymentStatusObj

structure PortObj where
  name : Option String
  port : Int
  target_port : Json
  protocol : Option String
  node_port : Option Int

structure ServiceSpecObj where
  type : Option String
  cluster_ip : Option String
  external_i_ps : Option (List String)
  ports : Option (List PortObj)
  selector : Option (List (String × String))

structure ServiceObj where
  metadata : MetaObj
  spec : ServiceSpecObj

structure AddressObj where
  type : String
  address : String

structure NodeInfoObj where
  kubelet_version : String
  os_image : String
  kernel_version : String
  container_runtime_version : String
  architecture : String

structure NodeStatusObj where
  conditions : Option (List CondObj)
  capacity : List (String × String)
  allocatable : List (String × String)
  addresses : List AddressObj
  node_info : NodeInfoObj

structure NodeObj where
  metadata : MetaObj
  status : NodeStatusObj

structure NamespaceStatusObj where
  phase : Option String

structure NamespaceObj where
  metadata : MetaObj
  status : NamespaceStatusObj

structure VersionObj where
  major : String
  minor : String
  git_version : String
  platform : String

/-- A created API object, as returned by the `create_namespaced_*` calls. -/
structure ApiObj where
  metadata : MetaObj

/-- One call on the kubernetes client boundary, with the arguments the
repository passes (recorded in the trace). -/
inductive CapCall where
  | list_namespaced_pod (nsp label_selector : String)
  | list_pod_for_all_namespaces (label_selector : String)
  | read_namespaced_pod_log (name nsp : String) (container : Option String) (tail_lines : Int)
  | pod_exec (name nsp : String) (command : List String) (container : Option String)
  | delete_namespaced_pod (name nsp : String)
  | list_namespaced_deployment (nsp : String)
  | list_deployment_for_all_namespaces
  | read_namespaced_deployment (name nsp : String)
  | patch_namespaced_deployment (name nsp : String) (body : DeploymentObj)
  | patch_namespaced_deployment_scale (name nsp : String) (body : Json)
  | list_namespaced_service (nsp : String)
  | list_service_for_all_namespaces
  | list_node
  | list_namespace
  | get_code
  | create_namespaced_pod (nsp : Json) (body : Json)
  | create_namespaced_deployment (nsp : Json) (body : Json)
  | create_namespaced_service (nsp : Json) (body : Json)
  | delete_namespaced_deployment (name nsp : String)
  | delete_namespaced_service (name nsp : String)

abbrev Trace := List CapCall

/-- The external cluster collaborator: each kubernetes client call either
returns its result object or raises an `ApiErr`. -/
structure Cluster where
  list_namespaced_pod : String → String → Except ApiErr (List PodObj)
  list_pod_for_all_namespaces : String → Except ApiErr (List PodObj)
  read_namespaced_pod_log : String → String → Option String → Int → Except ApiErr String
  pod_exec : String → String → List String → Option String → Except ApiErr String
  delete_namespaced_pod : String → String → Except ApiErr Unit
  list_namespaced_deployment : String → Except ApiErr (List DeploymentObj)
  list_deployment_for_all_namespaces : Unit → Except ApiErr (List DeploymentObj)
  read_namespaced_deployment : String → String → Except ApiErr DeploymentObj
  patch_namespaced_deployment : String → String → DeploymentObj → Except ApiErr Unit
  patch_namespaced_deployment_scale : String → String → Json → Except ApiErr DeploymentObj
  list_namespaced_service : String → Except ApiErr (List ServiceObj)
  list_service_for_all_namespaces : Unit → Except ApiErr (List ServiceObj)
  list_node : Unit → Except ApiErr (List NodeObj)
  list_namespace : Unit → Except ApiErr (List NamespaceObj)
  get_code : Unit → Except ApiErr VersionObj
  create_namespaced_pod : Json → Json → Except ApiErr ApiObj
  create_namespaced_deployment : Json → Json → Except ApiErr ApiObj
  create_namespaced_service : Json → Json → Except ApiErr ApiObj
  delete_namespaced_deployment : String → String → Except ApiErr Unit
  delete_namespaced_service : String → String → Except ApiErr Unit

/-- The external yaml library. -/
structure Yaml where
  safe_load_all : String → Except String (List Json)
  safe_load : String → Except String Json

/-- A computation that may raise a `PyErr`, together with the trace of
kubernetes API calls it issued. -/
def Res (α : Type) : Type := Except PyErr α × Trace

def Res.ok {α : Type} (a : α) : Res α := (.ok a, [])

def Res.fail {α : Type} (e : PyErr) : Res α := (.error e, [])

def Res.bind {α β : Type} (x : Res α) (f : α → Res β) : Res β :=
  match x with
  | (.error e, t) => (.error e, t)
  | (.ok a, t) => ((f a).1, t ++ (f a).2)

/-- Issue one kubernetes API call: record it in the trace, and convert an
`ApiErr` to a python exception through `wrap` (each client method wraps the
`ApiException` in its own message). -/
def api {α : Type} (c : CapCall) (r : Except ApiErr α) (wrap : ApiErr → PyErr) : Res α :=
  match r with
  | .ok a => (.ok a, [c])
  | .error e => (.error (wrap e), [c])

/- ----- The MCP argument bag ----- -/

/-- The loosely typed argument object of a tool invocation. -/
abbrev Args := List (String × Json)

def argsFind (a : Args) (k : String) : Option Json :=
  (a.find? (fun kv => kv.1 == k)).map (·.2)

/-- Python dict assignment on the argument bag. -/
def argsSet : Args → String → Json → Args
  | [], k, v => [(k, v)]
  | (k0, v0) :: tl, k, v =>
      if k0 = k then (k0, v) :: tl else (k0, v0) :: argsSet tl k v

/-- `arguments[k]`: raises `KeyError k` when absent. -/
def getItem (a : Args) (k : String) : Res Json :=
  match argsFind a k with
  | some v => Res.ok v
  | none => Res.fail (.keyError k)

/-- Typed boundary for a `str` parameter (a JSON string in every invocation
the schemas describe). -/
def asStr (v : Json) : Res String :=
  match v with
  | .str s => Res.ok s
  | _ => Res.fail (.typeErr "expected str")

/-- Typed boundary for an `int` parameter. -/
def asInt (v : Json) : Res Int :=
  match v with
  | .int n => Res.ok n
  | _ => Res.fail (.typeErr "expected int")

def jlistStrings : JList → Option (List String)
  | .nil => some []
  | .cons (.str s) tl => (jlistStrings tl).map (s :: ·)
  | .cons _ _ => none

/-- Typed boundary for an array-of-strings parameter (the `command` arg). -/
def asStrList (v : Json) : Res (List String) :=
  match v with
  | .arr xs =>
      match jlistStrings xs with
      | some l => Res.ok l
      | none => Res.fail (.typeErr "expected list of str")
  | _ => Res.fail (.typeErr "expected list")

/-- Typed boundary for an optional `str` parameter obtained with
`arguments.get(k)`: an absent key or a JSON null is Python `None`. -/
def optStr (v : Option Json) : Res (Option String) :=
  match v with
  | none => Res.ok none
  | some .null => Res.ok none
  | some (.str s) => Res.ok (some s)
  | some _ => Res.fail (.typeErr "expected str")

/-- Typed boundary for `arguments.get(k, default)` with an int default. -/
def optIntD (v : Option Json) (d : Int) : Res Int :=
  match v with
  | none => Res.ok d
  | some (.int n) => Res.ok n
  | some _ => Res.fail (.typeErr "expected int")

/-- Python truthiness of an `Optional[str]` (`if namespace:`). -/
def truthyOpt : Option String → Bool
  | none => false
  | some s => s != ""

/-- Python `x or ""` on an `Optional[str]`. -/
def orEmpty : Option String → String
  | none => ""
  | some s => s

/-- One `TextContent(type="text", text=...)` item of an MCP response. -/
structure TextContent where
  type : String
  text : String

/-- A tool registered in `TOOLS`: its name and the parameter names and
required-parameter names of its input schema. -/
structure ToolDescr where
  name : String
  params : List String
  required : List String
deriving DecidableEq

/-- Lookup in a string-keyed python dict (`d.get(k)` returning `None` as
JSON null). -/
def dictGet (d : List (String × String)) (k : String) : Json :=
  Json.ofOptStr ((d.find? (fun kv => kv.1 == k)).map (·.2))

/-- Python dict update `d[k] = v` preserving insertion order. -/
def dictUpsert (d : List (String × String)) (k v : String) : List (String × String) :=
  if (d.find? (fun kv => kv.1 == k)).isSome then
    d.map (fun kv => if kv.1 == k then (kv.1, v) else kv)
  else d ++ [(k, v)]

/-- Python `s.split("/")[1]` (guarded in the source by a `startswith` check
that guarantees a slash is present). -/
def splitIdx1 (s : String) : String := ((s.splitOn "/").drop 1).headD ""

end K3s

namespace K3s.TopLevel

/-
  Embedding of `k3s_mcp_server/server.py` (the top-level package of the
  repository).  Kubernetes API failures carry `e.reason` into the wrapped
  exception messages; `call_tool` serializes successful results with
  `json.dumps(..., indent=2)` and converts any exception into a
  `{"error": str(e)}` payload.
-/

open K3s

/-- Shaping of one pod in `K3sClient.get_pods` (the dict built in its loop
body). -/
def pod_info (pod : PodObj) : Json :=
  .obj (.ofList [
    ("name", .str pod.metadata.name),
    ("namespace", Json.ofOptStr pod.metadata.nsp),
    ("status", Json.ofOptStr pod.status.phase),
    ("node", Json.ofOptStr pod.spec.node_name),
    ("ip", Json.ofOptStr pod.status.pod_ip),
    ("conditions", .arr (.ofList ((pod.status.conditions.getD []).map fun c =>
        Json.obj (.ofList [("type", .str c.type), ("status", .str c.status)])))),
    ("containers", .arr (.ofList (pod.spec.containers.map fun c =>
        Json.obj (.ofList [
          ("name", .str c.name),
          ("image", .str c.image),
          ("ready", .bool ((((pod.status.container_statuses.getD []).find?
              (fun cs => cs.name == c.name)).map (·.ready)).getD false))]))))])

/-- `K3sClient.get_pods`. -/
def get_pods (cl : Cluster) (nsp label_selector : Option String) : Res Json :=
  let wrap : ApiErr → PyErr := fun e => .exn ("Failed to list pods: " ++ e.reason)
  Res.bind
    (if truthyOpt nsp then
      api (.list_namespaced_pod (nsp.getD "") (orEmpty label_selector))
          (cl.list_namespaced_pod (nsp.getD "") (orEmpty label_selector)) wrap
    else
      api (.list_pod_for_all_namespaces (orEmpty label_selector))
          (cl.list_pod_for_all_namespaces (orEmpty label_selector)) wrap)
    fun pods =>
      Res.ok (.obj (.ofList [
        ("pods", .arr (.ofList (pods.map pod_info))),
        ("count", .int pods.length)]))

/-- `K3sClient.get_pod_logs`. -/
def get_pod_logs (cl : Cluster) (pod_name nsp : String) (container : Option String)
    (tail_lines : Int) : Res String :=
  api (.read_namespaced_pod_log pod_name nsp container tail_lines)
      (cl.read_namespaced_pod_log pod_name nsp container tail_lines)
      (fun e => .exn ("Failed to get logs: " ++ e.reason))

/-- `K3sClient.execute_command` (the `container` kwarg is only added to the
exec call when truthy). -/
def execute_command (cl : Cluster) (pod_name nsp : String) (command : List String)
    (container : Option String) : Res String :=
  let c := if truthyOpt container then container else none
  api (.pod_exec pod_name nsp command c) (cl.pod_exec pod_name nsp command c)
      (fun e => .exn ("Failed to execute command: " ++ e.reason))

/-- `K3sClient.delete_pod`. -/
def delete_pod (cl : Cluster) (pod_name nsp : String) : Res Json :=
  Res.bind
    (api (.delete_namespaced_pod pod_name nsp) (cl.delete_namespaced_pod pod_name nsp)
      (fun e => .exn ("Failed to delete pod: " ++ e.reason)))
    fun _ => Res.ok (.obj (.ofList [
      ("status", .str "deleted"),
      ("pod", .str pod_name),
      ("namespace", .str nsp)]))

/-- Shaping of one deployment in `K3sClient.get_deployments`. -/
def deployment_info (dep : DeploymentObj) : Json :=
  .obj (.ofList [
    ("name", .str dep.metadata.name),
    ("namespace", Json.ofOptStr dep.metadata.nsp),
    ("replicas", Json.ofOptInt dep.spec.replicas),
    ("ready_replicas", .int (dep.status.ready_replicas.getD 0)),
    ("available_replicas", .int (dep.status.available_replicas.getD 0)),
    ("updated_replicas", .int (dep.status.updated_replicas.getD 0)),
    ("conditions", .arr (.ofList ((dep.status.conditions.getD []).map fun c =>
        Json.obj (.ofList [
          ("type", .str c.type),
          ("status", .str c.status),
          ("reason", Json.ofOptStr c.reason)]))))])

/-- `K3sClient.get_deployments`. -/
def get_deployments (cl : Cluster) (nsp : Option String) : Res Json :=
  let wrap : ApiErr → PyErr := fun e => .exn ("Failed to list deployments: " ++ e.reason)
  Res.bind
    (if truthyOpt nsp then
      api (.list_namespaced_deployment (nsp.getD ""))
          (cl.list_namespaced_deployment (nsp.getD "")) wrap
    else
      api .list_deployment_for_all_namespaces
          (cl.list_deployment_for_all_namespaces ()) wrap)
    fun deployments =>
      Res.ok (.obj (.ofList [
        ("deployments", .arr (.ofList (deployments.map deployment_info))),
        ("count", .int deployments.length)]))

/-- `K3sClient.get_deployment`. -/
def get_deployment (cl : Cluster) (name nsp : String) : Res Json :=
  Res.bind
    (api (.read_namespaced_deployment name nsp) (cl.read_namespaced_deployment name nsp)
      (fun e => .exn ("Failed to get deployment: " ++ e.reason)))
    fun dep => Res.ok (.obj (.ofList [
      ("name", .str dep.metadata.name),
      ("namespace", Json.ofOptStr dep.metadata.nsp),
      ("replicas", Json.ofOptInt dep.spec.replicas),
      ("ready_replicas", .int (dep.status.ready_replicas.getD 0)),
      ("available_replicas", .int (dep.status.available_replicas.getD 0)),
      ("selector", match dep.spec.selector.match_labels with
        | none => Json.null
        | some m => Json.ofStrMap m),
      ("strategy", Json.ofOptStr dep.spec.strategy.type),
      ("containers", .arr (.ofList (dep.spec.template.spec.containers.map fun c =>
          Json.obj (.ofList [("name", .str c.name), ("image", .str c.image)])))),
      ("conditions", .arr (.ofList ((dep.status.conditions.getD []).map fun c =>
          Json.obj (.ofList [
            ("type", .str c.type),
            ("status", .str c.status),
            ("reason", Json.ofOptStr c.reason),
            ("message", Json.ofOptStr c.message)]))))]))

/-- `K3sClient.scale_deployment`: read the deployment, set `spec.replicas`,
patch it back. -/
def scale_deployment (cl : Cluster) (name nsp : String) (replicas : Int) : Res Json :=
  let wrap : ApiErr → PyErr := fun e => .exn ("Failed to scale deployment: " ++ e.reason)
  Res.bind
    (api (.read_namespaced_deployment name nsp) (cl.read_namespaced_deployment name nsp) wrap)
    fun dep =>
  let dep2 := { dep with spec := { dep.spec with replicas := some replicas } }
  Res.bind
    (api (.patch_namespaced_deployment name nsp dep2)
      (cl.patch_namespaced_deployment name nsp dep2) wrap)
    fun _ => Res.ok (.obj (.ofList [
      ("status", .str "scaled"),
      ("deployment", .str name),
      ("namespace", .str nsp),
      ("replicas", .int replicas)]))

/-- Shaping of one service in `K3sClient.get_services`. -/
def service_info (svc : ServiceObj) : Json :=
  .obj (.ofList [
    ("name", .str svc.metadata.name),
    ("namespace", Json.ofOptStr svc.metadata.nsp),
    ("type", Json.ofOptStr svc.spec.type),
    ("cluster_ip", Json.ofOptStr svc.spec.cluster_ip),
    ("ports", .arr (.ofList ((svc.spec.ports.getD []).map fun p =>
        Json.obj (.ofList [
          ("name", Json.ofOptStr p.name),
          ("port", .int p.port),
          ("target_port", .str p.target_port.pyStr),
          ("protocol", Json.ofOptStr p.protocol),
          ("node_port", match p.node_port with
            | some n => if n != 0 then Json.int n else Json.null
            | none => Json.null)])))),
    ("selector", Json.ofStrMap (svc.spec.selector.getD []))])

/-- `K3sClient.get_services`. -/
def get_services (cl : Cluster) (nsp : Option String) : Res Json :=
  let wrap : ApiErr → PyErr := fun e => .exn ("Failed to list services: " ++ e.reason)
  Res.bind
    (if truthyOpt nsp then
      api (.list_namespaced_service (nsp.getD "")) (cl.list_namespaced_service (nsp.getD "")) wrap
    else
      api .list_service_for_all_namespaces (cl.list_service_for_all_namespaces ()) wrap)
    fun services =>
      Res.ok (.obj (.ofList [
        ("services", .arr (.ofList (services.map service_info))),
        ("count", .int services.length)]))

/-- Shaping of one node in `K3sClient.get_nodes`. -/
def node_info (node : NodeObj) : Json :=
  let conditions := (node.status.conditions.getD []).foldl
    (fun d c => dictUpsert d c.type c.status) []
  .obj (.ofList [
    ("name", .str node.metadata.name),
    ("status", .str (if ((conditions.find? (fun kv => kv.1 == "Ready")).map (·.2)) == some "True"
        then "Ready" else "NotReady")),
    ("roles", .arr (.ofList (((node.metadata.labels.map Prod.fst).filter
        (fun label => label.startsWith "node-role.kubernetes.io/")).map
        (fun label => Json.str (splitIdx1 label))))),
    ("version", .str node.status.node_info.kubelet_version),
    ("os", .str node.status.node_info.os_image),
    ("kernel", .str node.status.node_info.kernel_version),
    ("container_runtime", .str node.status.node_info.container_runtime_version),
    ("capacity", .obj (.ofList [
      ("cpu", dictGet node.status.capacity "cpu"),
      ("memory", dictGet node.status.capacity "memory"),
      ("pods", dictGet node.status.capacity "pods")])),
    ("allocatable", .obj (.ofList [
      ("cpu", dictGet node.status.allocatable "cpu"),
      ("memory", dictGet node.status.allocatable "memory"),
      ("pods", dictGet node.status.allocatable "pods")])),
    ("addresses", .arr (.ofList (node.status.addresses.map fun a =>
        Json.obj (.ofList [("type", .str a.type), ("address", .str a.address)])))),
    ("conditions", Json.ofStrMap conditions)])

/-- `K3sClient.get_nodes`. -/
def get_nodes (cl : Cluster) : Res Json :=
  Res.bind
    (api .list_node (cl.list_node ()) (fun e => .exn ("Failed to list nodes: " ++ e.reason)))
    fun nodes =>
      Res.ok (.obj (.ofList [
        ("nodes", .arr (.ofList (nodes.map node_info))),
        ("count", .int nodes.length)]))

/-- `K3sClient.get_namespaces`. -/
def get_namespaces (cl : Cluster) : Res Json :=
  Res.bind
    (api .list_namespace (cl.list_namespace ())
      (fun e => .exn ("Failed to list namespaces: " ++ e.reason)))
    fun nss =>
      Res.ok (.obj (.ofList [
        ("namespaces", .arr (.ofList (nss.map fun ns =>
          Json.obj (.ofList [
            ("name", .str ns.metadata.name),
            ("status", Json.ofOptStr ns.status.phase)])))),
        ("count", .int nss.length)]))

/-- `K3sClient.get_cluster_info`. -/
def get_cluster_info (cl : Cluster) : Res Json :=
  let wrap : ApiErr → PyErr := fun e => .exn ("Failed to get cluster info: " ++ e.reason)
  Res.bind (api .get_code (cl.get_code ()) wrap) fun version =>
  Res.bind (api .list_node (cl.list_node ()) wrap) fun nodes =>
  Res.bind (api .list_namespace (cl.list_namespace ()) wrap) fun namespaces =>
  Res.ok (.obj (.ofList [
    ("version", .obj (.ofList [
      ("major", .str version.major),
      ("minor", .str version.minor),
      ("git_version", .str version.git_version),
      ("platform", .str version.platform)])),
    ("node_count", .int nodes.length),
    ("namespace_count", .int namespaces.length)]))

/-- The per-document body of the `K3sClient.apply_manifest` loop: falsy
documents are skipped, `Pod`/`Deployment`/`Service` are created, any other
kind only appends a warning string. -/
def apply_loop (cl : Cluster) (nsp : Option String) (default_namespace : String) :
    List Json → Res (List String)
  | [] => Res.ok []
  | manifest :: rest =>
    if !manifest.truthy then apply_loop cl nsp default_namespace rest
    else
      let kind := manifest.get "kind"
      let metadata := manifest.getD "metadata" (.obj .nil)
      let name := metadata.get "name"
      let obj_namespace : Json :=
        if truthyOpt nsp then .str (nsp.getD "")
        else metadata.getD "namespace" (.str default_namespace)
      let wrap : ApiErr → PyErr := fun e => .exn ("Failed to apply manifest: " ++ e.reason)
      match kind with
      | .str s =>
          if s = "Pod" then
            Res.bind (api (.create_namespaced_pod obj_namespace manifest)
                (cl.create_namespaced_pod obj_namespace manifest) wrap) fun _ =>
            Res.bind (apply_loop cl nsp default_namespace rest) fun rs =>
            Res.ok (("Created Pod " ++ name.pyStr ++ " in " ++ obj_namespace.pyStr) :: rs)
          else if s = "Deployment" then
            Res.bind (api (.create_namespaced_deployment obj_namespace manifest)
                (cl.create_namespaced_deployment obj_namespace manifest) wrap) fun _ =>
            Res.bind (apply_loop cl nsp default_namespace rest) fun rs =>
            Res.ok (("Created Deployment " ++ name.pyStr ++ " in " ++ obj_namespace.pyStr) :: rs)
          else if s = "Service" then
            Res.bind (api (.create_namespaced_service obj_namespace manifest)
                (cl.create_namespaced_service obj_namespace manifest) wrap) fun _ =>
            Res.bind (apply_loop cl nsp default_namespace rest) fun rs =>
            Res.ok (("Created Service " ++ name.pyStr ++ " in " ++ obj_namespace.pyStr) :: rs)
          else
            Res.bind (apply_loop cl nsp default_namespace rest) fun rs =>
            Res.ok (("Warning: Unsupported kind " ++ kind.pyStr ++ " for " ++ name.pyStr) :: rs)
      | _ =>
          Res.bind (apply_loop cl nsp default_namespace rest) fun rs =>
          Res.ok (("Warning: Unsupported kind " ++ kind.pyStr ++ " for " ++ name.pyStr) :: rs)

/-- `K3sClient.apply_manifest`: parse all YAML documents, apply each, and
report `{"status": "applied", "results": [...]}`; a YAML parse failure
raises `Invalid YAML: ...`. -/
def apply_manifest (cl : Cluster) (y : Yaml) (default_namespace : String)
    (manifest_yaml : String) (nsp : Option String) : Res Json :=
  match y.safe_load_all manifest_yaml with
  | .error msg => Res.fail (.exn ("Invalid YAML: " ++ msg))
  | .ok manifests =>
      Res.bind (apply_loop cl nsp default_namespace manifests) fun results =>
      Res.ok (.obj (.ofList [
        ("status", .str "applied"),
        ("results", .arr (.ofList (results.map Json.str)))]))

/-- `K3sClient.delete_resource`: case-sensitive dispatch on the kind string;
an unsupported kind raises before any deletion call. -/
def delete_resource (cl : Cluster) (kind name nsp : String) : Res Json :=
  let wrap : ApiErr → PyErr := fun e => .exn ("Failed to delete resource: " ++ e.reason)
  Res.bind
    (if kind = "Pod" then
      api (.delete_namespaced_pod name nsp) (cl.delete_namespaced_pod name nsp) wrap
    else if kind = "Deployment" then
      api (.delete_namespaced_deployment name nsp) (cl.delete_namespaced_deployment name nsp) wrap
    else if kind = "Service" then
      api (.delete_namespaced_service name nsp) (cl.delete_namespaced_service name nsp) wrap
    else Res.fail (.exn ("Unsupported resource kind: " ++ kind)))
    fun _ => Res.ok (.obj (.ofList [
      ("status", .str "deleted"),
      ("kind", .str kind),
      ("name", .str name),
      ("namespace", .str nsp)]))

/-- The `TOOLS` registry: tool names with the parameter names and required
parameters of their input schemas. -/
def TOOLS : List ToolDescr := [
  ⟨"get_pods", ["namespace", "labels"], []⟩,
  ⟨"get_logs", ["pod_name", "namespace", "container", "tail_lines"], ["pod_name", "namespace"]⟩,
  ⟨"execute_command", ["pod_name", "namespace", "command", "container"],
    ["pod_name", "namespace", "command"]⟩,
  ⟨"restart_pod", ["pod_name", "namespace"], ["pod_name", "namespace"]⟩,
  ⟨"get_deployments", ["namespace"], []⟩,
  ⟨"get_deployment", ["name", "namespace"], ["name", "namespace"]⟩,
  ⟨"scale_deployment", ["name", "namespace", "replicas"], ["name", "namespace", "replicas"]⟩,
  ⟨"get_services", ["namespace"], []⟩,
  ⟨"get_nodes", [], []⟩,
  ⟨"get_cluster_info", [], []⟩,
  ⟨"get_namespaces", [], []⟩,
  ⟨"apply_manifest", ["manifest_yaml", "namespace"], ["manifest_yaml"]⟩,
  ⟨"delete_resource", ["kind", "name", "namespace"], ["kind", "name", "namespace"]⟩]

/-- The `try:` body of `call_tool`: route on the tool name, extract the
arguments (`arguments[k]` for required, `arguments.get(k)` for optional),
invoke the client method, and serialize — `json.dumps(..., indent=2)` for
structured results, the raw string for `get_logs` / `execute_command`. -/
def call_tool_body (cl : Cluster) (y : Yaml) (default_namespace : String)
    (name : String) (args : Args) : Res (List TextContent) :=
  if name = "get_pods" then
    Res.bind (optStr (argsFind args "namespace")) fun nsp =>
    Res.bind (optStr (argsFind args "labels")) fun labels =>
    Res.bind (get_pods cl nsp labels) fun result =>
    Res.ok [⟨"text", jsonDumps result⟩]
  else if name = "get_logs" then
    Res.bind (getItem args "pod_name") fun pnJ =>
    Res.bind (getItem args "namespace") fun nsJ =>
    Res.bind (asStr pnJ) fun pod_name =>
    Res.bind (asStr nsJ) fun nsp =>
    Res.bind (optStr (argsFind args "container")) fun container =>
    Res.bind (optIntD (argsFind args "tail_lines") 100) fun tail_lines =>
    Res.bind (get_pod_logs cl pod_name nsp container tail_lines) fun logs =>
    Res.ok [⟨"text", logs⟩]
  else if name = "execute_command" then
    Res.bind (getItem args "pod_name") fun pnJ =>
    Res.bind (getItem args "namespace") fun nsJ =>
    Res.bind (getItem args "command") fun cmdJ =>
    Res.bind (asStr pnJ) fun pod_name =>
    Res.bind (asStr nsJ) fun nsp =>
    Res.bind (asStrList cmdJ) fun command =>
    Res.bind (optStr (argsFind args "container")) fun container =>
    Res.bind (execute_command cl pod_name nsp command container) fun output =>
    Res.ok [⟨"text", output⟩]
  else if name = "restart_pod" then
    Res.bind (getItem args "pod_name") fun pnJ =>
    Res.bind (getItem args "namespace") fun nsJ =>
    Res.bind (asStr pnJ) fun pod_name =>
    Res.bind (asStr nsJ) fun nsp =>
    Res.bind (delete_pod cl pod_name nsp) fun result =>
    Res.ok [⟨"text", jsonDumps result⟩]
  else if name = "get_deployments" then
    Res.bind (optStr (argsFind args "namespace")) fun nsp =>
    Res.bind (get_deployments cl nsp) fun result =>
    Res.ok [⟨"text", jsonDumps result⟩]
  else if name = "get_deployment" then
    Res.bind (getItem args "name") fun nJ =>
    Res.bind (getItem args "namespace") fun nsJ =>
    Res.bind (asStr nJ) fun dname =>
    Res.bind (asStr nsJ) fun nsp =>
    Res.bind (get_deployment cl dname nsp) fun result =>
    Res.ok [⟨"text", jsonDumps result⟩]
  else if name = "scale_deployment" then
    Res.bind (getItem args "name") fun nJ =>
    Res.bind (getItem args "namespace") fun nsJ =>
    Res.bind (getItem args "replicas") fun rJ =>
    Res.bind (asStr nJ) fun dname =>
    Res.bind (asStr nsJ) fun nsp =>
    Res.bind (asInt rJ) fun replicas =>
    Res.bind (scale_deployment cl dname nsp replicas) fun result =>
    Res.ok [⟨"text", jsonDumps result⟩]
  else if name = "get_services" then
    Res.bind (optStr (argsFind args "namespace")) fun nsp =>
    Res.bind (get_services cl nsp) fun result =>
    Res.ok [⟨"text", jsonDumps result⟩]
  else if name = "get_nodes" then
    Res.bind (get_nodes cl) fun result =>
    Res.ok [⟨"text", jsonDumps result⟩]
  else if name = "get_cluster_info" then
    Res.bind (get_cluster_info cl) fun result =>
    Res.ok [⟨"text", jsonDumps result⟩]
  else if name = "get_namespaces" then
    Res.bind (get_namespaces cl) fun result =>
    Res.ok [⟨"text", jsonDumps result⟩]
  else if name = "apply_manifest" then
    Res.bind (getItem args "manifest_yaml") fun myJ =>
    Res.bind (asStr myJ) fun manifest_yaml =>
    Res.bind (optStr (argsFind args "namespace")) fun nsp =>
    Res.bind (apply_manifest cl y default_namespace manifest_yaml nsp) fun result =>
    Res.ok [⟨"text", jsonDumps result⟩]
  else if name = "delete_resource" then
    Res.bind (getItem args "kind") fun kJ =>
    Res.bind (getItem args "name") fun nJ =>
    Res.bind (getItem args "namespace") fun nsJ =>
    Res.bind (asStr kJ) fun kind =>
    Res.bind (asStr nJ) fun rname =>
    Res.bind (asStr nsJ) fun nsp =>
    Res.bind (delete_resource cl kind rname nsp) fun result =>
    Res.ok [⟨"text", jsonDumps result⟩]
  else Res.fail (.valueError ("Unknown tool: " ++ name))

/-- `call_tool`: the `try` body above with the `except Exception` handler
that converts any raised exception into a `{"error": str(e)}` payload. -/
def call_tool (cl : Cluster) (y : Yaml) (default_namespace : String)
    (name : String) (args : Args) : List TextContent × Trace :=
  match call_tool_body cl y default_namespace name args with
  | (.error e, t) =>
      ([⟨"text", jsonDumps (.obj (.cons "error" (.str (pyStrErr e)) .nil))⟩], t)
  | (.ok items, t) => (items, t)

/-- Outcome of process startup. -/
inductive StartupOutcome where
  | exitCode (code : Nat)
  | crash (msg : String)
  | serves (connectivity_warning : Bool)

/-- Startup of the top-level server: the module-level kubeconfig existence
check exits with code 1; a kubeconfig load failure re-raises out of
`K3sClient.__init__` and crashes the import; `main` then only *warns* when
the connectivity probe (`get_cluster_info`) fails, and serves regardless. -/
def startup (kubeconfig_exists : Bool) (load_kube_config : Except String Unit)
    (cl : Cluster) : StartupOutcome :=
  if !kubeconfig_exists then .exitCode 1
  else match load_kube_config with
    | .error e => .crash e
    | .ok _ =>
        match (get_cluster_info cl).1 with
        | .error _ => .serves true
        | .ok _ => .serves false

end K3s.TopLevel

namespace K3s.SrcLayout

/-
  Embedding of `src/k3s_mcp_server/server.py` (the `src/` layout copy of the
  server).  This variant wraps kubernetes API failures with `str(e)` (the
  `full` field of `ApiErr`), substitutes the configured default namespace for
  omitted or falsy `namespace` arguments of the operations that default it,
  matches resource kinds case-insensitively in `delete_resource`, and raises
  on unsupported kinds in `apply_manifest`.
-/

open K3s

/-- `K3sClient._format_pod_info`. -/
def format_pod_info (pod : PodObj) : Json :=
  .obj (.ofList [
    ("name", .str pod.metadata.name),
    ("namespace", Json.ofOptStr pod.metadata.nsp),
    ("status", Json.ofOptStr pod.status.phase),
    ("node", Json.ofOptStr pod.spec.node_name),
    ("pod_ip", Json.ofOptStr pod.status.pod_ip),
    ("host_ip", Json.ofOptStr pod.status.host_ip),
    ("containers", .arr (.ofList (pod.spec.containers.map fun c =>
        Json.obj (.ofList [
          ("name", .str c.name),
          ("image", .str c.image),
          ("ready", .bool (match pod.status.container_statuses with
            | some [] => false
            | none => false
            | some l => (((l.find? (fun cs => cs.name == c.name)).map (·.ready)).getD false))),
          ("restart_count", .int (match pod.status.container_statuses with
            | some [] => 0
            | none => 0
            | some l => (((l.find? (fun cs => cs.name == c.name)).map (·.restart_count)).getD 0)))])))),
    ("created", Json.ofOptStr pod.metadata.creation_timestamp),
    ("labels", Json.ofStrMap pod.metadata.labels)])

/-- `K3sClient._format_deployment_info`. -/
def format_deployment_info (dep : DeploymentObj) : Json :=
  .obj (.ofList [
    ("name", .str dep.metadata.name),
    ("namespace", Json.ofOptStr dep.metadata.nsp),
    ("replicas", .obj (.ofList [
      ("desired", Json.ofOptInt dep.spec.replicas),
      ("current", .int (dep.status.replicas.getD 0)),
      ("ready", .int (dep.status.ready_replicas.getD 0)),
      ("available", .int (dep.status.available_replicas.getD 0)),
      ("unavailable", .int (dep.status.unavailable_replicas.getD 0))])),
    ("strategy", Json.ofOptStr dep.spec.strategy.type),
    ("containers", .arr (.ofList (dep.spec.template.spec.containers.map fun c =>
        Json.obj (.ofList [("name", .str c.name), ("image", .str c.image)])))),
    ("created", Json.ofOptStr dep.metadata.creation_timestamp),
    ("labels", Json.ofStrMap dep.metadata.labels),
    ("selector", Json.ofStrMap (dep.spec.selector.match_labels.getD []))])

/-- `K3sClient._format_service_info` (`hasattr(p, "node_port")` is always
true on a `V1ServicePort`, so the ternary reduces to the attribute value). -/
def format_service_info (svc : ServiceObj) : Json :=
  .obj (.ofList [
    ("name", .str svc.metadata.name),
    ("namespace", Json.ofOptStr svc.metadata.nsp),
    ("type", Json.ofOptStr svc.spec.type),
    ("cluster_ip", Json.ofOptStr svc.spec.cluster_ip),
    ("external_ips", .arr (.ofList ((svc.spec.external_i_ps.getD []).map Json.str))),
    ("ports", .arr (.ofList ((svc.spec.ports.getD []).map fun p =>
        Json.obj (.ofList [
          ("name", Json.ofOptStr p.name),
          ("port", .int p.port),
          ("target_port", .str p.target_port.pyStr),
          ("protocol", Json.ofOptStr p.protocol),
          ("node_port", Json.ofOptInt p.node_port)])))),
    ("selector", Json.ofStrMap (svc.spec.selector.getD [])),
    ("created", Json.ofOptStr svc.metadata.creation_timestamp),
    ("labels", Json.ofStrMap svc.metadata.labels)])

/-- `K3sClient._format_node_info`. -/
def format_node_info (node : NodeObj) : Json :=
  let conditions := (node.status.conditions.getD []).foldl
    (fun d c => dictUpsert d c.type c.status) []
  .obj (.ofList [
    ("name", .str node.metadata.name),
    ("status", .str (if ((conditions.find? (fun kv => kv.1 == "Ready")).map (·.2)) == some "True"
        then "Ready" else "NotReady")),
    ("roles", .arr (.ofList (((node.metadata.labels.map Prod.fst).filter
        (fun label => label.startsWith "node-role.kubernetes.io/")).map
        (fun label => Json.str (splitIdx1 label))))),
    ("version", .str node.status.node_info.kubelet_version),
    ("os", .str (node.status.node_info.os_image ++ " (" ++ node.status.node_info.architecture ++ ")")),
    ("kernel", .str node.status.node_info.kernel_version),
    ("container_runtime", .str node.status.node_info.container_runtime_version),
    ("capacity", .obj (.ofList [
      ("cpu", dictGet node.status.capacity "cpu"),
      ("memory", dictGet node.status.capacity "memory"),
      ("pods", dictGet node.status.capacity "pods")])),
    ("allocatable", .obj (.ofList [
      ("cpu", dictGet node.status.allocatable "cpu"),
      ("memory", dictGet node.status.allocatable "memory"),
      ("pods", dictGet node.status.allocatable "pods")])),
    ("addresses", .arr (.ofList (node.status.addresses.map fun a =>
        Json.obj (.ofList [("type", .str a.type), ("address", .str a.address)])))),
    ("conditions", Json.ofStrMap conditions),
    ("created", Json.ofOptStr node.metadata.creation_timestamp),
    ("labels", Json.ofStrMap node.metadata.labels)])

/-- `K3sClient.get_pods` (returns a python list of dicts). -/
def get_pods (cl : Cluster) (nsp labels : Option String) : Res (List Json) :=
  let wrap : ApiErr → PyErr := fun e => .exn ("Failed to list pods: " ++ e.full)
  Res.bind
    (if truthyOpt nsp then
      api (.list_namespaced_pod (nsp.getD "") (orEmpty labels))
          (cl.list_namespaced_pod (nsp.getD "") (orEmpty labels)) wrap
    else
      api (.list_pod_for_all_namespaces (orEmpty labels))
          (cl.list_pod_for_all_namespaces (orEmpty labels)) wrap)
    fun pods => Res.ok (pods.map format_pod_info)

/-- `K3sClient.get_deployments`. -/
def get_deployments (cl : Cluster) (nsp : Option String) : Res (List Json) :=
  let wrap : ApiErr → PyErr := fun e => .exn ("Failed to list deployments: " ++ e.full)
  Res.bind
    (if truthyOpt nsp then
      api (.list_namespaced_deployment (nsp.getD ""))
          (cl.list_namespaced_deployment (nsp.getD "")) wrap
    else
      api .list_deployment_for_all_namespaces (cl.list_deployment_for_all_namespaces ()) wrap)
    fun deployments => Res.ok (deployments.map format_deployment_info)

/-- `K3sClient.get_deployment`. -/
def get_deployment (cl : Cluster) (name nsp : String) : Res Json :=
  Res.bind
    (api (.read_namespaced_deployment name nsp) (cl.read_namespaced_deployment name nsp)
      (fun e => .exn ("Failed to get deployment " ++ name ++ ": " ++ e.full)))
    fun dep => Res.ok (format_deployment_info dep)

/-- `K3sClient.get_services`. -/
def get_services (cl : Cluster) (nsp : Option String) : Res (List Json) :=
  let wrap : ApiErr → PyErr := fun e => .exn ("Failed to list services: " ++ e.full)
  Res.bind
    (if truthyOpt nsp then
      api (.list_namespaced_service (nsp.getD "")) (cl.list_namespaced_service (nsp.getD "")) wrap
    else
      api .list_service_for_all_namespaces (cl.list_service_for_all_namespaces ()) wrap)
    fun services => Res.ok (services.map format_service_info)

/-- `K3sClient.get_nodes`. -/
def get_nodes (cl : Cluster) : Res (List Json) :=
  Res.bind
    (api .list_node (cl.list_node ()) (fun e => .exn ("Failed to list nodes: " ++ e.full)))
    fun nodes => Res.ok (nodes.map format_node_info)

/-- `K3sClient.scale_deployment`: a single `patch_namespaced_deployment_scale`
call with body `{"spec": {"replicas": replicas}}`. -/
def scale_deployment (cl : Cluster) (name nsp : String) (replicas : Int) : Res Json :=
  let body : Json := .obj (.cons "spec" (.obj (.cons "replicas" (.int replicas) .nil)) .nil)
  Res.bind
    (api (.patch_namespaced_deployment_scale name nsp body)
      (cl.patch_namespaced_deployment_scale name nsp body)
      (fun e => .exn ("Failed to scale deployment " ++ name ++ ": " ++ e.full)))
    fun _ => Res.ok (.obj (.ofList [
      ("name", .str name),
      ("namespace", .str nsp),
      ("replicas", .int replicas),
      ("status", .str "Scaled successfully")]))

/-- `K3sClient.restart_pod`. -/
def restart_pod (cl : Cluster) (name nsp : String) : Res Json :=
  Res.bind
    (api (.delete_namespaced_pod name nsp) (cl.delete_namespaced_pod name nsp)
      (fun e => .exn ("Failed to delete pod " ++ name ++ ": " ++ e.full)))
    fun _ => Res.ok (.obj (.ofList [
      ("name", .str name),
      ("namespace", .str nsp),
      ("status", .str "Pod deleted (will be recreated by controller)")]))

/-- `K3sClient.get_logs`. -/
def get_logs (cl : Cluster) (pod_name nsp : String) (container : Option String)
    (tail_lines : Int) : Res String :=
  api (.read_namespaced_pod_log pod_name nsp container tail_lines)
      (cl.read_namespaced_pod_log pod_name nsp container tail_lines)
      (fun e => .exn ("Failed to get logs for pod " ++ pod_name ++ ": " ++ e.full))

/-- `K3sClient.execute_command` (this variant always passes the `container`
kwarg, even when it is `None`). -/
def execute_command (cl : Cluster) (pod_name nsp : String) (command : List String)
    (container : Option String) : Res String :=
  api (.pod_exec pod_name nsp command container) (cl.pod_exec pod_name nsp command container)
      (fun e => .exn ("Failed to execute command in pod " ++ pod_name ++ ": " ++ e.full))

/-- Whether a parsed mapping contains a key (`"namespace" not in metadata`). -/
def hasKey (j : Json) (k : String) : Bool :=
  match j with
  | .obj kvs => (kvs.lookup k).isSome
  | _ => false

/-- Kinds exempt from the namespace injection of `apply_manifest`. -/
def clusterScopedKinds : List String :=
  ["Namespace", "Node", "PersistentVolume", "ClusterRole", "ClusterRoleBinding"]

/-- `manifest["metadata"]["namespace"] = resource_namespace`: raises
`KeyError` when the manifest has no `metadata` key. -/
def injectNamespace (manifest : Json) (resource_namespace : Json) : Res Json :=
  match manifest with
  | .obj mo =>
      match mo.lookup "metadata" with
      | some (.obj mmo) =>
          Res.ok (.obj (mo.set "metadata" (.obj (mmo.set "namespace" resource_namespace))))
      | some _ => Res.fail (.typeErr "item assignment on non-mapping metadata")
      | none => Res.fail (.keyError "metadata")
  | _ => Res.fail (.typeErr "item assignment on non-mapping manifest")

/-- The body of `K3sClient.apply_manifest` after `yaml.safe_load`: inject the
resolved namespace into namespaced kinds, create the object when the kind is
`Pod` / `Deployment` / `Service`, and raise `Unsupported resource kind`
otherwise. -/
def apply_manifest_doc (cl : Cluster) (default_namespace : String)
    (manifest : Json) (nsp : Option String) : Res Json :=
    let kind := manifest.get "kind"
    let metadata := manifest.getD "metadata" (.obj .nil)
    let resource_namespace : Json :=
      if truthyOpt nsp then .str (nsp.getD "")
      else metadata.getD "namespace" (.str default_namespace)
    let kindNamespaced : Bool :=
      match kind with
      | .str s => !(clusterScopedKinds.contains s)
      | _ => true
    Res.bind
      (if !(hasKey metadata "namespace") && kindNamespaced then
        injectNamespace manifest resource_namespace
      else Res.ok manifest)
      fun manifest2 =>
    let wrap : ApiErr → PyErr := fun e => .exn ("Failed to apply manifest: " ++ e.full)
    Res.bind
      (match kind with
      | .str "Pod" =>
          api (.create_namespaced_pod resource_namespace manifest2)
              (cl.create_namespaced_pod resource_namespace manifest2) wrap
      | .str "Deployment" =>
          api (.create_namespaced_deployment resource_namespace manifest2)
              (cl.create_namespaced_deployment resource_namespace manifest2) wrap
      | .str "Service" =>
          api (.create_namespaced_service resource_namespace manifest2)
              (cl.create_namespaced_service resource_namespace manifest2) wrap
      | _ => Res.fail (.exn ("Unsupported resource kind: " ++ kind.pyStr)))
      fun result => Res.ok (.obj (.ofList [
        ("kind", kind),
        ("name", .str result.metadata.name),
        ("namespace", Json.ofOptStr result.metadata.nsp),
        ("status", .str "Created successfully")]))

/-- `K3sClient.apply_manifest`: parse one YAML document and process it. -/
def apply_manifest (cl : Cluster) (y : Yaml) (default_namespace : String)
    (manifest_yaml : String) (nsp : Option String) : Res Json :=
  match y.safe_load manifest_yaml with
  | .error msg => Res.fail (.exn ("Failed to parse YAML manifest: " ++ msg))
  | .ok manifest => apply_manifest_doc cl default_namespace manifest nsp

/-- `K3sClient.delete_resource`: case-insensitive dispatch via
`kind.lower()`; the returned payload reports `Deleted successfully`. -/
def delete_resource (cl : Cluster) (kind name nsp : String) : Res Json :=
  let wrap : ApiErr → PyErr :=
    fun e => .exn ("Failed to delete " ++ kind ++ " " ++ name ++ ": " ++ e.full)
  let lowered := String.mk (kind.data.map Char.toLower)
  Res.bind
    (if lowered = "pod" then
      api (.delete_namespaced_pod name nsp) (cl.delete_namespaced_pod name nsp) wrap
    else if lowered = "deployment" then
      api (.delete_namespaced_deployment name nsp) (cl.delete_namespaced_deployment name nsp) wrap
    else if lowered = "service" then
      api (.delete_namespaced_service name nsp) (cl.delete_namespaced_service name nsp) wrap
    else Res.fail (.exn ("Unsupported resource kind for deletion: " ++ kind)))
    fun _ => Res.ok (.obj (.ofList [
      ("kind", .str kind),
      ("name", .str name),
      ("namespace", .str nsp),
      ("status", .str "Deleted successfully")]))

/-- `K3sClient.get_namespaces`. -/
def get_namespaces (cl : Cluster) : Res (List Json) :=
  Res.bind
    (api .list_namespace (cl.list_namespace ())
      (fun e => .exn ("Failed to list namespaces: " ++ e.full)))
    fun nss => Res.ok (nss.map fun ns =>
      Json.obj (.ofList [
        ("name", .str ns.metadata.name),
        ("status", Json.ofOptStr ns.status.phase),
        ("created", Json.ofOptStr ns.metadata.creation_timestamp),
        ("labels", Json.ofStrMap ns.metadata.labels)]))

/-- `K3sClient.get_cluster_info`: the version probe wraps `ApiException`s in
its own message; the node and namespace summaries reuse `get_nodes` and
`get_namespaces`, whose wrapped exceptions propagate unchanged. -/
def get_cluster_info (cl : Cluster) : Res Json :=
  Res.bind (api .get_code (cl.get_code ())
    (fun e => .exn ("Failed to get cluster info: " ++ e.full))) fun version =>
  Res.bind (get_nodes cl) fun nodes =>
  Res.bind (get_namespaces cl) fun namespaces =>
  Res.ok (.obj (.ofList [
    ("version", .obj (.ofList [
      ("major", .str version.major),
      ("minor", .str version.minor),
      ("git_version", .str version.git_version),
      ("platform", .str version.platform)])),
    ("nodes", .obj (.ofList [
      ("total", .int nodes.length),
      ("ready", .int (nodes.countP (fun n => match n.get "status" with
        | .str "Ready" => true
        | _ => false)))])),
    ("namespaces", .obj (.ofList [
      ("total", .int namespaces.length),
      ("list", .arr (.ofList (namespaces.map (fun ns => ns.get "name"))))]))]))

/-- The `TOOLS` registry of the `src/` layout server. -/
def TOOLS : List ToolDescr := [
  ⟨"get_pods", ["namespace", "labels"], []⟩,
  ⟨"get_deployments", ["namespace"], []⟩,
  ⟨"get_deployment", ["name", "namespace"], ["name"]⟩,
  ⟨"get_services", ["namespace"], []⟩,
  ⟨"get_nodes", [], []⟩,
  ⟨"scale_deployment", ["name", "namespace", "replicas"], ["name", "replicas"]⟩,
  ⟨"restart_pod", ["name", "namespace"], ["name"]⟩,
  ⟨"get_logs", ["pod_name", "namespace", "container", "tail_lines"], ["pod_name"]⟩,
  ⟨"execute_command", ["pod_name", "namespace", "command", "container"], ["pod_name", "command"]⟩,
  ⟨"apply_manifest", ["manifest_yaml", "namespace"], ["manifest_yaml"]⟩,
  ⟨"delete_resource", ["kind", "name", "namespace"], ["kind", "name"]⟩,
  ⟨"get_namespaces", [], []⟩,
  ⟨"get_cluster_info", [], []⟩]

/-- The namespace normalization at the top of `call_tool`: a present but
falsy `namespace` argument is replaced by the configured default. -/
def norm_namespace (args : Args) (default_namespace : String) : Args :=
  match argsFind args "namespace" with
  | none => args
  | some v => if v.truthy then args else argsSet args "namespace" (.str default_namespace)

/-- `arguments.get("namespace", DEFAULT_NAMESPACE)`. -/
def getNamespaceD (args : Args) (default_namespace : String) : Res String :=
  match argsFind args "namespace" with
  | none => Res.ok default_namespace
  | some v => asStr v

/-- The `try:` body of the `src/` layout `call_tool`: normalize the
namespace argument, route on the tool name, and serialize — verbatim for
`str` results (`get_logs`, `execute_command`), `json.dumps(..., indent=2)`
for everything else. -/
def route (cl : Cluster) (y : Yaml) (default_namespace : String)
    (name : String) (args : Args) : Res (List TextContent) :=
  if name = "get_pods" then
    Res.bind (optStr (argsFind args "namespace")) fun nsp =>
    Res.bind (optStr (argsFind args "labels")) fun labels =>
    Res.bind (get_pods cl nsp labels) fun result =>
    Res.ok [⟨"text", jsonDumps (.arr (.ofList result))⟩]
  else if name = "get_deployments" then
    Res.bind (optStr (argsFind args "namespace")) fun nsp =>
    Res.bind (get_deployments cl nsp) fun result =>
    Res.ok [⟨"text", jsonDumps (.arr (.ofList result))⟩]
  else if name = "get_deployment" then
    Res.bind (getItem args "name") fun nJ =>
    Res.bind (asStr nJ) fun dname =>
    Res.bind (getNamespaceD args default_namespace) fun nsp =>
    Res.bind (get_deployment cl dname nsp) fun result =>
    Res.ok [⟨"text", jsonDumps result⟩]
  else if name = "get_services" then
    Res.bind (optStr (argsFind args "namespace")) fun nsp =>
    Res.bind (get_services cl nsp) fun result =>
    Res.ok [⟨"text", jsonDumps (.arr (.ofList result))⟩]
  else if name = "get_nodes" then
    Res.bind (get_nodes cl) fun result =>
    Res.ok [⟨"text", jsonDumps (.arr (.ofList result))⟩]
  else if name = "scale_deployment" then
    Res.bind (getItem args "name") fun nJ =>
    Res.bind (getItem args "replicas") fun rJ =>
    Res.bind (asStr nJ) fun dname =>
    Res.bind (getNamespaceD args default_namespace) fun nsp =>
    Res.bind (asInt rJ) fun replicas =>
    Res.bind (scale_deployment cl dname nsp replicas) fun result =>
    Res.ok [⟨"text", jsonDumps result⟩]
  else if name = "restart_pod" then
    Res.bind (getItem args "name") fun nJ =>
    Res.bind (asStr nJ) fun pname =>
    Res.bind (getNamespaceD args default_namespace) fun nsp =>
    Res.bind (restart_pod cl pname nsp) fun result =>
    Res.ok [⟨"text", jsonDumps result⟩]
  else if name = "get_logs" then
    Res.bind (getItem args "pod_name") fun pnJ =>
    Res.bind (asStr pnJ) fun pod_name =>
    Res.bind (getNamespaceD args default_namespace) fun nsp =>
    Res.bind (optStr (argsFind args "container")) fun container =>
    Res.bind (optIntD (argsFind args "tail_lines") 100) fun tail_lines =>
    Res.bind (get_logs cl pod_name nsp container tail_lines) fun result =>
    Res.ok [⟨"text", result⟩]
  else if name = "execute_command" then
    Res.bind (getItem args "pod_name") fun pnJ =>
    Res.bind (getItem args "command") fun cmdJ =>
    Res.bind (asStr pnJ) fun pod_name =>
    Res.bind (getNamespaceD args default_namespace) fun nsp =>
    Res.bind (asStrList cmdJ) fun command =>
    Res.bind (optStr (argsFind args "container")) fun container =>
    Res.bind (execute_command cl pod_name nsp command container) fun result =>
    Res.ok [⟨"text", result⟩]
  else if name = "apply_manifest" then
    Res.bind (getItem args "manifest_yaml") fun myJ =>
    Res.bind (asStr myJ) fun manifest_yaml =>
    Res.bind (optStr (argsFind args "namespace")) fun nsp =>
    Res.bind (apply_manifest cl y default_namespace manifest_yaml nsp) fun result =>
    Res.ok [⟨"text", jsonDumps result⟩]
  else if name = "delete_resource" then
    Res.bind (getItem args "kind") fun kJ =>
    Res.bind (getItem args "name") fun nJ =>
    Res.bind (asStr kJ) fun kind =>
    Res.bind (asStr nJ) fun rname =>
    Res.bind (getNamespaceD args default_namespace) fun nsp =>
    Res.bind (delete_resource cl kind rname nsp) fun result =>
    Res.ok [⟨"text", jsonDumps result⟩]
  else if name = "get_namespaces" then
    Res.bind (get_namespaces cl) fun result =>
    Res.ok [⟨"text", jsonDumps (.arr (.ofList result))⟩]
  else if name = "get_cluster_info" then
    Res.bind (get_cluster_info cl) fun result =>
    Res.ok [⟨"text", jsonDumps result⟩]
  else Res.fail (.valueError ("Unknown tool: " ++ name))

/-- The `try:` body of `call_tool`: the namespace normalization followed by
the routing stage above. -/
def call_tool_body (cl : Cluster) (y : Yaml) (default_namespace : String)
    (name : String) (args0 : Args) : Res (List TextContent) :=
  route cl y default_namespace name (norm_namespace args0 default_namespace)

/-- `call_tool` of the `src/` layout server: the body above with the
`except Exception` handler producing the plain-text
`Error executing {name}: {e}` payload. -/
def call_tool (cl : Cluster) (y : Yaml) (default_namespace : String)
    (name : String) (args : Args) : List TextContent × Trace :=
  match call_tool_body cl y default_namespace name args with
  | (.error e, t) => ([⟨"text", "Error executing " ++ name ++ ": " ++ pyStrErr e⟩], t)
  | (.ok items, t) => (items, t)

/-- Startup of the `src/` layout server: `K3sClient._load_config` exits with
code 1 on a missing or unloadable kubeconfig; `main` performs no
connectivity probe at all before serving. -/
def startup (kubeconfig_exists : Bool) (load_kube_config : Except String Unit) :
    TopLevel.StartupOutcome :=
  if !kubeconfig_exists then .exitCode 1
  else match load_kube_config with
    | .error _ => .exitCode 1
    | .ok _ => .serves false

end K3s.SrcLayout

namespace K3s

/- ----- Concrete collaborator instances used to instantiate theorems ----- -/

def emptyMeta : MetaObj :=
  { name := "", nsp := none, labels := [], creation_timestamp := none }

def sampleDep : DeploymentObj :=
  { metadata := emptyMeta,
    spec := { replicas := none, selector := ⟨none⟩, strategy := ⟨none⟩,
              template := ⟨⟨none, []⟩⟩ },
    status := { replicas := none, ready_replicas := none, available_replicas := none,
                updated_replicas := none, unavailable_replicas := none, conditions := none } }

def sampleVersion : VersionObj := ⟨"1", "28", "v1.28.4+k3s1", "linux/amd64"⟩

/-- A healthy cluster oracle: every call succeeds with an empty / trivial
result object. -/
def okCluster : Cluster :=
  { list_namespaced_pod := fun _ _ => .ok []
    list_pod_for_all_namespaces := fun _ => .ok []
    read_namespaced_pod_log := fun _ _ _ _ => .ok ""
    pod_exec := fun _ _ _ _ => .ok ""
    delete_namespaced_pod := fun _ _ => .ok ()
    list_namespaced_deployment := fun _ => .ok []
    list_deployment_for_all_namespaces := fun _ => .ok []
    read_namespaced_deployment := fun _ _ => .ok sampleDep
    patch_namespaced_deployment := fun _ _ _ => .ok ()
    patch_namespaced_deployment_scale := fun _ _ _ => .ok sampleDep
    list_namespaced_service := fun _ => .ok []
    list_service_for_all_namespaces := fun _ => .ok []
    list_node := fun _ => .ok []
    list_namespace := fun _ => .ok []
    get_code := fun _ => .ok sampleVersion
    create_namespaced_pod := fun _ _ => .ok ⟨emptyMeta⟩
    create_namespaced_deployment := fun _ _ => .ok ⟨emptyMeta⟩
    create_namespaced_service := fun _ _ => .ok ⟨emptyMeta⟩
    delete_namespaced_deployment := fun _ _ => .ok ()
    delete_namespaced_service := fun _ _ => .ok () }

def downErr : ApiErr := ⟨"connection refused", "(500)\nReason: connection refused"⟩

/-- An unreachable cluster oracle: every call fails. -/
def downCluster : Cluster :=
  { list_namespaced_pod := fun _ _ => .error downErr
    list_pod_for_all_namespaces := fun _ => .error downErr
    read_namespaced_pod_log := fun _ _ _ _ => .error downErr
    pod_exec := fun _ _ _ _ => .error downErr
    delete_namespaced_pod := fun _ _ => .error downErr
    list_namespaced_deployment := fun _ => .error downErr
    list_deployment_for_all_namespaces := fun _ => .error downErr
    read_namespaced_deployment := fun _ _ => .error downErr
    patch_namespaced_deployment := fun _ _ _ => .error downErr
    patch_namespaced_deployment_scale := fun _ _ _ => .error downErr
    list_namespaced_service := fun _ => .error downErr
    list_service_for_all_namespaces := fun _ => .error downErr
    list_node := fun _ => .error downErr
    list_namespace := fun _ => .error downErr
    get_code := fun _ => .error downErr
    create_namespaced_pod := fun _ _ => .error downErr
    create_namespaced_deployment := fun _ _ => .error downErr
    create_namespaced_service := fun _ _ => .error downErr
    delete_namespaced_deployment := fun _ _ => .error downErr
    delete_namespaced_service := fun _ _ => .error downErr }

/-- A cluster oracle returning fixed log and command output. -/
def logsCluster : Cluster :=
  { okCluster with
    read_namespaced_pod_log := fun _ _ _ _ => .ok "line-1\nline-2"
    pod_exec := fun _ _ _ _ => .ok "cmd-output" }

/-- A cluster oracle whose pod listing fails with a `not found` reason. -/
def notFoundCluster : Cluster :=
  { okCluster with
    list_pod_for_all_namespaces := fun _ => .error ⟨"not found", "(404)\nReason: not found"⟩ }

/-- A yaml oracle used where parsing is irrelevant. -/
def noYaml : Yaml := ⟨fun _ => .ok [], fun _ => .ok .null⟩

/-- A single-document manifest of the unsupported kind `ConfigMap`. -/
def cmManifest (nm : String) : Json :=
  .obj (.cons "kind" (.str "ConfigMap")
    (.cons "metadata" (.obj (.cons "name" (.str nm) .nil)) .nil))

/-- A yaml oracle that parses every input to the `ConfigMap` manifest. -/
def cmYaml : Yaml := ⟨fun _ => .ok [cmManifest "cm1"], fun _ => .ok (cmManifest "cm1")⟩

/-- Every `ok` outcome of a router body is a single text payload. -/
def Single (r : Res (List TextContent)) : Prop :=
  ∀ items, r.1 = Except.ok items → items.length = 1

/-- Every `ok` outcome of a branch is the JSON encoding of some value. -/
def JsonOut (r : Res (List TextContent)) : Prop :=
  ∀ items, r.1 = Except.ok items → ∃ j, items = [⟨"text", jsonDumps j⟩]

/-- The first required argument of a schema that is absent from the
argument bag. -/
def firstMissing (req : List String) (args : Args) : Option String :=
  req.find? (fun k => (argsFind args k).isNone)

/- ----- Helper lemmas about `Res` ----- -/

theorem Res.bind_fail {α β : Type} (e : PyErr) (f : α → Res β) :
    Res.bind (Res.fail e) f = Res.fail e := rfl

theorem Res.bind_ok {α β : Type} (a : α) (f : α → Res β) :
    Res.bind (Res.ok a) f = f a := by
  show ((f a).1, [] ++ (f a).2) = f a
  simp

theorem Single_bind {α : Type} {x : Res α} {f : α → Res (List TextContent)}
    (h : ∀ a, Single (f a)) : Single (Res.bind x f) := by
  intro items hit
  obtain ⟨ex, t⟩ := x
  cases ex with
  | error e => exact absurd hit (by simp [Res.bind])
  | ok a => exact h a items (by simpa [Res.bind] using hit)

theorem Single_okOne (x : TextContent) : Single (Res.ok [x]) := by
  intro items h
  obtain rfl : [x] = items := by simpa [Res.ok] using h
  rfl

theorem Single_fail (e : PyErr) : Single (Res.fail e) := by
  intro items h
  exact absurd h (by simp [Res.fail])

theorem JsonOut_bind {α : Type} {x : Res α} {f : α → Res (List TextContent)}
    (h : ∀ a, JsonOut (f a)) : JsonOut (Res.bind x f) := by
  intro items hit
  obtain ⟨ex, t⟩ := x
  cases ex with
  | error e => exact absurd hit (by simp [Res.bind])
  | ok a => exact h a items (by simpa [Res.bind] using hit)

theorem JsonOut_dump (j : Json) : JsonOut (Res.ok [⟨"text", jsonDumps j⟩]) := by
  intro items h
  exact ⟨j, by simpa [Res.ok] using h.symm⟩

theorem JsonOut_fail (e : PyErr) : JsonOut (Res.fail e) := by
  intro items h
  exact absurd h (by simp [Res.fail])

/-- The body of the top-level `call_tool` always succeeds with exactly one
`TextContent` item. -/
theorem TopLevel.body_single (cl : Cluster) (y : Yaml) (dns : String)
    (name : String) (args : Args) : Single (TopLevel.call_tool_body cl y dns name args) := by
  unfold TopLevel.call_tool_body
  by_cases h1 : name = "get_pods"
  · rw [if_pos h1]
    repeat first | exact Single_okOne _ | (apply Single_bind; intro _)
  rw [if_neg h1]
  by_cases h2 : name = "get_logs"
  · rw [if_pos h2]
    repeat first | exact Single_okOne _ | (apply Single_bind; intro _)
  rw [if_neg h2]
  by_cases h3 : name = "execute_command"
  · rw [if_pos h3]
    repeat first | exact Single_okOne _ | (apply Single_bind; intro _)
  rw [if_neg h3]
  by_cases h4 : name = "restart_pod"
  · rw [if_pos h4]
    repeat first | exact Single_okOne _ | (apply Single_bind; intro _)
  rw [if_neg h4]
  by_cases h5 : name = "get_deployments"
  · rw [if_pos h5]
    repeat first | exact Single_okOne _ | (apply Single_bind; intro _)
  rw [if_neg h5]
  by_cases h6 : name = "get_deployment"
  · rw [if_pos h6]
    repeat first | exact Single_okOne _ | (apply Single_bind; intro _)
  rw [if_neg h6]
  by_cases h7 : name = "scale_deployment"
  · rw [if_pos h7]
    repeat first | exact Single_okOne _ | (apply Single_bind; intro _)
  rw [if_neg h7]
  by_cases h8 : name = "get_services"
  · rw [if_pos h8]
    repeat first | exact Single_okOne _ | (apply Single_bind; intro _)
  rw [if_neg h8]
  by_cases h9 : name = "get_nodes"
  · rw [if_pos h9]
    repeat first | exact Single_okOne _ | (apply Single_bind; intro _)
  rw [if_neg h9]
  by_cases h10 : name = "get_cluster_info"
  · rw [if_pos h10]
    repeat first | exact Single_okOne _ | (apply Single_bind; intro _)
  rw [if_neg h10]
  by_cases h11 : name = "get_namespaces"
  · rw [if_pos h11]
    repeat first | exact Single_okOne _ | (apply Single_bind; intro _)
  rw [if_neg h11]
  by_cases h12 : name = "apply_manifest"
  · rw [if_pos h12]
    repeat first | exact Single_okOne _ | (apply Single_bind; intro _)
  rw [if_neg h12]
  by_cases h13 : name = "delete_resource"
  · rw [if_pos h13]
    repeat first | exact Single_okOne _ | (apply Single_bind; intro _)
  rw [if_neg h13]
  exact Single_fail _

/-- The routing stage of the `src/` layout `call_tool` always succeeds with
exactly one `TextContent` item. -/
theorem SrcLayout.route_single (cl : Cluster) (y : Yaml) (dns : String)
    (name : String) (args : Args) : Single (SrcLayout.route cl y dns name args) := by
  unfold SrcLayout.route
  by_cases h1 : name = "get_pods"
  · rw [if_pos h1]
    repeat first | exact Single_okOne _ | (apply Single_bind; intro _)
  rw [if_neg h1]
  by_cases h2 : name = "get_deployments"
  · rw [if_pos h2]
    repeat first | exact Single_okOne _ | (apply Single_bind; intro _)
  rw [if_neg h2]
  by_cases h3 : name = "get_deployment"
  · rw [if_pos h3]
    repeat first | exact Single_okOne _ | (apply Single_bind; intro _)
  rw [if_neg h3]
  by_cases h4 : name = "get_services"
  · rw [if_pos h4]
    repeat first | exact Single_okOne _ | (apply Single_bind; intro _)
  rw [if_neg h4]
  by_cases h5 : name = "get_nodes"
  · rw [if_pos h5]
    repeat first | exact Single_okOne _ | (apply Single_bind; intro _)
  rw [if_neg h5]
  by_cases h6 : name = "scale_deployment"
  · rw [if_pos h6]
    repeat first | exact Single_okOne _ | (apply Single_bind; intro _)
  rw [if_neg h6]
  by_cases h7 : name = "restart_pod"
  · rw [if_pos h7]
    repeat first | exact Single_okOne _ | (apply Single_bind; intro _)
  rw [if_neg h7]
  by_cases h8 : name = "get_logs"
  · rw [if_pos h8]
    repeat first | exact Single_okOne _ | (apply Single_bind; intro _)
  rw [if_neg h8]
  by_cases h9 : name = "execute_command"
  · rw [if_pos h9]
    repeat first | exact Single_okOne _ | (apply Single_bind; intro _)
  rw [if_neg h9]
  by_cases h10 : name = "apply_manifest"
  · rw [if_pos h10]
    repeat first | exact Single_okOne _ | (apply Single_bind; intro _)
  rw [if_neg h10]
  by_cases h11 : name = "delete_resource"
  · rw [if_pos h11]
    repeat first | exact Single_okOne _ | (apply Single_bind; intro _)
  rw [if_neg h11]
  by_cases h12 : name = "get_namespaces"
  · rw [if_pos h12]
    repeat first | exact Single_okOne _ | (apply Single_bind; intro _)
  rw [if_neg h12]
  by_cases h13 : name = "get_cluster_info"
  · rw [if_pos h13]
    repeat first | exact Single_okOne _ | (apply Single_bind; intro _)
  rw [if_neg h13]
  exact Single_fail _

/-- Every branch of the top-level body other than `get_logs` and
`execute_command` serializes its successful result with `json.dumps`. -/
theorem TopLevel.body_jsonout (cl : Cluster) (y : Yaml) (dns : String)
    (name : String) (args : Args) (hL : name ≠ "get_logs") (hE : name ≠ "execute_command") :
    JsonOut (TopLevel.call_tool_body cl y dns name args) := by
  unfold TopLevel.call_tool_body
  by_cases h1 : name = "get_pods"
  · rw [if_pos h1]
    repeat first | exact JsonOut_dump _ | (apply JsonOut_bind; intro _)
  rw [if_neg h1]
  by_cases h2 : name = "get_logs"
  · rw [if_pos h2]
    exact absurd h2 hL
  rw [if_neg h2]
  by_cases h3 : name = "execute_command"
  · rw [if_pos h3]
    exact absurd h3 hE
  rw [if_neg h3]
  by_cases h4 : name = "restart_pod"
  · rw [if_pos h4]
    repeat first | exact JsonOut_dump _ | (apply JsonOut_bind; intro _)
  rw [if_neg h4]
  by_cases h5 : name = "get_deployments"
  · rw [if_pos h5]
    repeat first | exact JsonOut_dump _ | (apply JsonOut_bind; intro _)
  rw [if_neg h5]
  by_cases h6 : name = "get_deployment"
  · rw [if_pos h6]
    repeat first | exact JsonOut_dump _ | (apply JsonOut_bind; intro _)
  rw [if_neg h6]
  by_cases h7 : name = "scale_deployment"
  · rw [if_pos h7]
    repeat first | exact JsonOut_dump _ | (apply JsonOut_bind; intro _)
  rw [if_neg h7]
  by_cases h8 : name = "get_services"
  · rw [if_pos h8]
    repeat first | exact JsonOut_dump _ | (apply JsonOut_bind; intro _)
  rw [if_neg h8]
  by_cases h9 : name = "get_nodes"
  · rw [if_pos h9]
    repeat first | exact JsonOut_dump _ | (apply JsonOut_bind; intro _)
  rw [if_neg h9]
  by_cases h10 : name = "get_cluster_info"
  · rw [if_pos h10]
    repeat first | exact JsonOut_dump _ | (apply JsonOut_bind; intro _)
  rw [if_neg h10]
  by_cases h11 : name = "get_namespaces"
  · rw [if_pos h11]
    repeat first | exact JsonOut_dump _ | (apply JsonOut_bind; intro _)
  rw [if_neg h11]
  by_cases h12 : name = "apply_manifest"
  · rw [if_pos h12]
    repeat first | exact JsonOut_dump _ | (apply JsonOut_bind; intro _)
  rw [if_neg h12]
  by_cases h13 : name = "delete_resource"
  · rw [if_pos h13]
    repeat first | exact JsonOut_dump _ | (apply JsonOut_bind; intro _)
  rw [if_neg h13]
  exact JsonOut_fail _

end K3s

namespace K3s

/-- Claim C1 (counterexample): in the top-level router, the invocation
`scale_deployment` with arguments `{name: "web", replicas: 3}` and default
namespace `"default"` does not have the default namespace substituted: it
returns a `KeyError` failure payload and issues no cluster call at all, so
in particular no scale call with namespace `"default"` is made. -/
theorem c1_default_namespace_counterexample :
    TopLevel.call_tool okCluster noYaml "default" "scale_deployment"
      [("name", .str "web"), ("replicas", .int 3)] =
      ([⟨"text", jsonDumps (.obj (.cons "error" (.str "\x27namespace\x27") .nil))⟩], []) ∧
    (TopLevel.call_tool okCluster noYaml "default" "scale_deployment"
      [("name", .str "web"), ("replicas", .int 3)]).2 ≠
      [.patch_namespaced_deployment_scale "web" "default"
        (.obj (.cons "spec" (.obj (.cons "replicas" (.int 3) .nil)) .nil))] :=
  ⟨rfl, by
    intro h
    have h0 : (TopLevel.call_tool okCluster noYaml "default" "scale_deployment"
        [("name", .str "web"), ("replicas", .int 3)]).2 = ([] : Trace) := rfl
    rw [h0] at h
    exact List.noConfusion h⟩

/-- Claim C1 (amended): the `src/` layout router substitutes the configured
default namespace for an omitted `namespace` argument of the operations that
default it, so `{name: "web", replicas: 3}` with default `"default"` invokes
exactly the deployment-scale patch `("web", "default", replicas 3)`; the
top-level router performs no such substitution for `scale_deployment`
(whose schema requires `namespace`): the same bag yields a `KeyError
"namespace"` failure payload with no cluster call. -/
theorem c1_default_namespace_amended :
    ∀ (cl : Cluster) (y : Yaml) (d : DeploymentObj),
    cl.patch_namespaced_deployment_scale "web" "default"
      (.obj (.cons "spec" (.obj (.cons "replicas" (.int 3) .nil)) .nil)) = .ok d →
    SrcLayout.call_tool cl y "default" "scale_deployment"
      [("name", .str "web"), ("replicas", .int 3)] =
      ([⟨"text", jsonDumps (.obj (.ofList [("name", .str "web"), ("namespace", .str "default"),
          ("replicas", .int 3), ("status", .str "Scaled successfully")]))⟩],
       [.patch_namespaced_deployment_scale "web" "default"
          (.obj (.cons "spec" (.obj (.cons "replicas" (.int 3) .nil)) .nil))]) ∧
    TopLevel.call_tool cl y "default" "scale_deployment"
      [("name", .str "web"), ("replicas", .int 3)] =
      ([⟨"text", jsonDumps (.obj (.cons "error" (.str "\x27namespace\x27") .nil))⟩], []) := by
  intro cl y d h
  constructor
  · have key : ∀ r, cl.patch_namespaced_deployment_scale "web" "default"
        (.obj (.cons "spec" (.obj (.cons "replicas" (.int 3) .nil)) .nil)) = r →
        SrcLayout.call_tool cl y "default" "scale_deployment"
          [("name", .str "web"), ("replicas", .int 3)] =
        (match Res.bind (Res.bind (api (.patch_namespaced_deployment_scale "web" "default"
                (.obj (.cons "spec" (.obj (.cons "replicas" (.int 3) .nil)) .nil))) r
                (fun e => .exn ("Failed to scale deployment " ++ "web" ++ ": " ++ e.full)))
              (fun _ => Res.ok (.obj (.ofList [("name", .str "web"), ("namespace", .str "default"),
                  ("replicas", .int 3), ("status", .str "Scaled successfully")]))))
            (fun result => Res.ok [⟨"text", jsonDumps result⟩]) with
          | (.error e, t) =>
            ([⟨"text", "Error executing " ++ "scale_deployment" ++ ": " ++ pyStrErr e⟩], t)
          | (.ok items, t) => (items, t)) := by
      intro r hr
      subst hr
      rfl
    exact (key _ h).trans rfl
  · rfl

/-- Claim C1 (witness). -/
theorem c1_default_namespace_witness :
    okCluster.patch_namespaced_deployment_scale "web" "default"
      (.obj (.cons "spec" (.obj (.cons "replicas" (.int 3) .nil)) .nil)) = .ok sampleDep ∧
    SrcLayout.call_tool okCluster noYaml "default" "scale_deployment"
      [("name", .str "web"), ("replicas", .int 3)] =
      ([⟨"text", jsonDumps (.obj (.ofList [("name", .str "web"), ("namespace", .str "default"),
          ("replicas", .int 3), ("status", .str "Scaled successfully")]))⟩],
       [.patch_namespaced_deployment_scale "web" "default"
          (.obj (.cons "spec" (.obj (.cons "replicas" (.int 3) .nil)) .nil))]) :=
  ⟨rfl, (c1_default_namespace_amended okCluster noYaml sampleDep rfl).1⟩

/-- Claim C2 (counterexample): the top-level `apply_manifest`, invoked on a
manifest of kind `ConfigMap`, does not fail: it returns a success payload
`{"status": "applied"}` whose results carry only a warning string, and the
empty trace shows no create call was issued. -/
theorem c2_apply_unsupported_counterexample :
    TopLevel.call_tool okCluster cmYaml "default" "apply_manifest"
      [("manifest_yaml", .str "kind: ConfigMap\nmetadata:\n  name: cm1")] =
      ([⟨"text", jsonDumps (.obj (.ofList [("status", .str "applied"),
          ("results", .arr (.cons (.str "Warning: Unsupported kind ConfigMap for cm1") .nil))]))⟩],
       []) ∧
    (TopLevel.call_tool_body okCluster cmYaml "default" "apply_manifest"
      [("manifest_yaml", .str "kind: ConfigMap\nmetadata:\n  name: cm1")]).1 ≠
      Except.error (.exn "Unsupported resource kind: ConfigMap") :=
  ⟨rfl, by
    intro h
    have h0 : (TopLevel.call_tool_body okCluster cmYaml "default" "apply_manifest"
        [("manifest_yaml", .str "kind: ConfigMap\nmetadata:\n  name: cm1")]).1 =
        Except.ok [⟨"text", jsonDumps (.obj (.ofList [("status", .str "applied"),
          ("results", .arr (.cons (.str "Warning: Unsupported kind ConfigMap for cm1") .nil))]))⟩] := rfl
    rw [h0] at h
    exact Except.noConfusion h⟩

/-- Claim C2 (amended): on a manifest whose kind is the unsupported
`ConfigMap`, neither implementation performs any create call; the `src/`
layout implementation raises `Unsupported resource kind: ConfigMap`, while
the top-level implementation returns a *success* payload with status
`applied` containing a warning naming the unsupported kind. -/
theorem c2_apply_unsupported_amended :
    ∀ (cl : Cluster) (y : Yaml) (s nm : String),
    (y.safe_load_all s = .ok [cmManifest nm] →
      TopLevel.call_tool cl y "default" "apply_manifest" [("manifest_yaml", .str s)] =
        ([⟨"text", jsonDumps (.obj (.ofList [("status", .str "applied"),
            ("results", .arr (.cons (.str ("Warning: Unsupported kind ConfigMap for " ++ nm)) .nil))]))⟩],
         [])) ∧
    (y.safe_load s = .ok (cmManifest nm) →
      SrcLayout.call_tool cl y "default" "apply_manifest" [("manifest_yaml", .str s)] =
        ([⟨"text", "Error executing apply_manifest: Unsupported resource kind: ConfigMap"⟩], [])) := by
  intro cl y s nm
  constructor
  · intro hy
    have key : ∀ r, y.safe_load_all s = r →
        TopLevel.call_tool cl y "default" "apply_manifest" [("manifest_yaml", .str s)] =
        (match Res.bind (match r with
            | .error msg => Res.fail (.exn ("Invalid YAML: " ++ msg))
            | .ok manifests => Res.bind (TopLevel.apply_loop cl none "default" manifests)
                (fun results => Res.ok (.obj (.ofList [("status", .str "applied"),
                    ("results", .arr (.ofList (results.map Json.str)))]))))
          (fun result => Res.ok [⟨"text", jsonDumps result⟩]) with
          | (.error e, t) =>
            ([⟨"text", jsonDumps (.obj (.cons "error" (.str (pyStrErr e)) .nil))⟩], t)
          | (.ok items, t) => (items, t)) := by
      intro r hr
      subst hr
      rfl
    exact (key _ hy).trans rfl
  · intro hy
    have key : ∀ r, y.safe_load s = r →
        SrcLayout.call_tool cl y "default" "apply_manifest" [("manifest_yaml", .str s)] =
        (match Res.bind (match r with
            | .error msg => Res.fail (.exn ("Failed to parse YAML manifest: " ++ msg))
            | .ok manifest => SrcLayout.apply_manifest_doc cl "default" manifest none)
          (fun result => Res.ok [⟨"text", jsonDumps result⟩]) with
          | (.error e, t) =>
            ([⟨"text", "Error executing " ++ "apply_manifest" ++ ": " ++ pyStrErr e⟩], t)
          | (.ok items, t) => (items, t)) := by
      intro r hr
      subst hr
      rfl
    exact (key _ hy).trans rfl

/-- Claim C2 (witness). -/
theorem c2_apply_unsupported_witness :
    cmYaml.safe_load_all "kind: ConfigMap\nmetadata:\n  name: cm1" = .ok [cmManifest "cm1"] ∧
    TopLevel.call_tool okCluster cmYaml "default" "apply_manifest"
      [("manifest_yaml", .str "kind: ConfigMap\nmetadata:\n  name: cm1")] =
      ([⟨"text", jsonDumps (.obj (.ofList [("status", .str "applied"),
          ("results", .arr (.cons (.str ("Warning: Unsupported kind ConfigMap for " ++ "cm1")) .nil))]))⟩],
       []) ∧
    SrcLayout.call_tool okCluster cmYaml "default" "apply_manifest"
      [("manifest_yaml", .str "kind: ConfigMap\nmetadata:\n  name: cm1")] =
      ([⟨"text", "Error executing apply_manifest: Unsupported resource kind: ConfigMap"⟩], []) :=
  ⟨rfl,
   (c2_apply_unsupported_amended okCluster cmYaml
     "kind: ConfigMap\nmetadata:\n  name: cm1" "cm1").1 rfl,
   (c2_apply_unsupported_amended okCluster cmYaml
     "kind: ConfigMap\nmetadata:\n  name: cm1" "cm1").2 rfl⟩

/-- Claim C3 (counterexample): the `src/` layout `delete_resource`, invoked
with kind `Pod`, name `x`, namespace `ns`, performs exactly one deletion
call with those values but reports status `Deleted successfully`, not
`deleted` as the claim states. -/
theorem c3_delete_payload_counterexample :
    SrcLayout.delete_resource okCluster "Pod" "x" "ns" =
      (.ok (.obj (.ofList [("kind", .str "Pod"), ("name", .str "x"), ("namespace", .str "ns"),
        ("status", .str "Deleted successfully")])), [.delete_namespaced_pod "x" "ns"]) ∧
    ("Deleted successfully" : String) ≠ "deleted" :=
  ⟨rfl, by decide⟩

/-- Claim C3 (amended): `delete_resource` with kind `Pod`, name `n`,
namespace `ns` performs exactly one deletion call carrying those values in
both implementations; the top-level implementation returns a success payload
with status `deleted` (and the claimed kind/name/namespace fields), while
the `src/` layout implementation reports status `Deleted successfully`. -/
theorem c3_delete_payload_amended :
    ∀ (cl : Cluster) (n ns : String), cl.delete_namespaced_pod n ns = .ok () →
    TopLevel.delete_resource cl "Pod" n ns =
      (.ok (.obj (.ofList [("status", .str "deleted"), ("kind", .str "Pod"), ("name", .str n),
        ("namespace", .str ns)])), [.delete_namespaced_pod n ns]) ∧
    SrcLayout.delete_resource cl "Pod" n ns =
      (.ok (.obj (.ofList [("kind", .str "Pod"), ("name", .str n), ("namespace", .str ns),
        ("status", .str "Deleted successfully")])), [.delete_namespaced_pod n ns]) := by
  intro cl n ns h
  constructor
  · have key : ∀ r, cl.delete_namespaced_pod n ns = r →
        TopLevel.delete_resource cl "Pod" n ns =
        Res.bind (api (.delete_namespaced_pod n ns) r
            (fun e => .exn ("Failed to delete resource: " ++ e.reason)))
          (fun _ => Res.ok (.obj (.ofList [("status", .str "deleted"), ("kind", .str "Pod"),
            ("name", .str n), ("namespace", .str ns)]))) := by
      intro r hr
      subst hr
      rfl
    exact (key _ h).trans rfl
  · have key : ∀ r, cl.delete_namespaced_pod n ns = r →
        SrcLayout.delete_resource cl "Pod" n ns =
        Res.bind (api (.delete_namespaced_pod n ns) r
            (fun e => .exn ("Failed to delete " ++ "Pod" ++ " " ++ n ++ ": " ++ e.full)))
          (fun _ => Res.ok (.obj (.ofList [("kind", .str "Pod"), ("name", .str n),
            ("namespace", .str ns), ("status", .str "Deleted successfully")]))) := by
      intro r hr
      subst hr
      rfl
    exact (key _ h).trans rfl

/-- Claim C3 (witness). -/
theorem c3_delete_payload_witness :
    okCluster.delete_namespaced_pod "x" "ns" = .ok () ∧
    TopLevel.delete_resource okCluster "Pod" "x" "ns" =
      (.ok (.obj (.ofList [("status", .str "deleted"), ("kind", .str "Pod"), ("name", .str "x"),
        ("namespace", .str "ns")])), [.delete_namespaced_pod "x" "ns"]) :=
  ⟨rfl, (c3_delete_payload_amended okCluster "x" "ns" rfl).1⟩

/-- Claim C7 (counterexample): with credentials present and loadable but the
cluster unreachable (every API call fails), the top-level server does not
terminate: its startup merely warns and proceeds to serve. -/
theorem c7_startup_counterexample :
    TopLevel.startup true (.ok ()) downCluster = .serves true ∧
    (∀ c : Nat, TopLevel.StartupOutcome.serves true ≠ .exitCode c) ∧
    (∀ m : String, TopLevel.StartupOutcome.serves true ≠ .crash m) :=
  ⟨rfl, fun _ h => by simp at h, fun _ h => by simp at h⟩

/-- Claim C7 (amended): a missing kubeconfig exits with code 1 in both
implementations before serving, and an unloadable kubeconfig is likewise
fatal (an uncaught exception at import in the top-level server, exit code 1
in the `src/` layout server); an unreachable cluster is *not* fatal: the
top-level server serves after logging a connectivity warning, and the
`src/` layout server performs no startup connectivity check at all. -/
theorem c7_startup_amended :
    ∀ (cl : Cluster) (msg : String) (lr : Except String Unit) (pe : PyErr),
      TopLevel.startup false lr cl = .exitCode 1 ∧
      SrcLayout.startup false lr = .exitCode 1 ∧
      TopLevel.startup true (.error msg) cl = .crash msg ∧
      SrcLayout.startup true (.error msg) = .exitCode 1 ∧
      ((TopLevel.get_cluster_info cl).1 = .error pe →
        TopLevel.startup true (.ok ()) cl = .serves true) ∧
      SrcLayout.startup true (.ok ()) = .serves false := by
  intro cl msg lr pe
  refine ⟨rfl, rfl, rfl, rfl, ?_, rfl⟩
  intro h
  unfold TopLevel.startup
  rw [h]
  rfl

/-- Claim C7 (witness). -/
theorem c7_startup_witness :
    (TopLevel.get_cluster_info downCluster).1 =
      .error (.exn ("Failed to get cluster info: " ++ "connection refused")) ∧
    TopLevel.startup true (.ok ()) downCluster = .serves true :=
  ⟨rfl, (c7_startup_amended downCluster "" (.ok ())
    (.exn ("Failed to get cluster info: " ++ "connection refused"))).2.2.2.2.1 rfl⟩

/-- Claim C10: the top-level `delete_resource` matches the kind string
case-sensitively: for every kind outside `{Pod, Deployment, Service}` —
including other casings such as `pod` — no deletion call is issued and the
invocation fails with a message naming the unsupported kind; conversely a
nonempty trace can only arise for one of the three exact kinds. -/
theorem c10_delete_kind_case_sensitive :
    ∀ (cl : Cluster) (kind n ns : String),
      (kind ∉ (["Pod", "Deployment", "Service"] : List String) →
        TopLevel.delete_resource cl kind n ns =
          (.error (.exn ("Unsupported resource kind: " ++ kind)), [])) ∧
      ((TopLevel.delete_resource cl kind n ns).2 ≠ [] →
        kind ∈ (["Pod", "Deployment", "Service"] : List String)) := by
  intro cl kind n ns
  have main : kind ∉ (["Pod", "Deployment", "Service"] : List String) →
      TopLevel.delete_resource cl kind n ns =
        (.error (.exn ("Unsupported resource kind: " ++ kind)), []) := by
    intro hk
    simp only [List.mem_cons, List.not_mem_nil, or_false, not_or] at hk
    obtain ⟨h1, h2, h3⟩ := hk
    have key : TopLevel.delete_resource cl kind n ns =
        Res.bind
          (if kind = "Pod" then
            api (.delete_namespaced_pod n ns) (cl.delete_namespaced_pod n ns)
              (fun e => .exn ("Failed to delete resource: " ++ e.reason))
          else if kind = "Deployment" then
            api (.delete_namespaced_deployment n ns) (cl.delete_namespaced_deployment n ns)
              (fun e => .exn ("Failed to delete resource: " ++ e.reason))
          else if kind = "Service" then
            api (.delete_namespaced_service n ns) (cl.delete_namespaced_service n ns)
              (fun e => .exn ("Failed to delete resource: " ++ e.reason))
          else Res.fail (.exn ("Unsupported resource kind: " ++ kind)))
          (fun _ => Res.ok (.obj (.ofList [("status", .str "deleted"), ("kind", .str kind),
            ("name", .str n), ("namespace", .str ns)]))) := rfl
    rw [key, if_neg h1, if_neg h2, if_neg h3]
    rfl
  refine ⟨main, ?_⟩
  intro ht
  by_contra hmem
  exact ht (by rw [main hmem])

/-- Claim C10 (witness). -/
theorem c10_delete_kind_case_sensitive_witness :
    ("pod" ∉ (["Pod", "Deployment", "Service"] : List String)) ∧
    TopLevel.delete_resource okCluster "pod" "x" "ns" =
      (.error (.exn ("Unsupported resource kind: " ++ "pod")), []) :=
  ⟨by decide, (c10_delete_kind_case_sensitive okCluster "pod" "x" "ns").1 (by decide)⟩

end K3s

namespace K3s

/-- Helper: `escString` distributes over append. -/
theorem escString_append (a b : String) : escString (a ++ b) = escString a ++ escString b := by
  simp only [escString, String.data_append, List.flatMap_append]
  rfl

/-- Helper: the character-list decomposition of the top-level error payload
around the escaped message. -/
theorem jsonDumps_error_data (m : String) :
    (jsonDumps (.obj (.cons "error" (.str m) .nil))).data =
      "\x7b\n  \"error\": \"".data ++ ((escString m).data ++ "\"\n\x7d".data) := by
  obtain ⟨lm⟩ := m
  simp [jsonDumps, dumpsAux, dumpsObj, spaces, escString, String.data_append, List.append_assoc]
  rfl

/-- Claim C4: every exception raised inside the top-level `call_tool` body —
in particular every failure of the capability interface — is converted into
a single normal `{"error": str(e)}` payload rather than propagated; for a
pod-listing failure the payload both equals the wrapped
`Failed to list pods: <reason>` error object and textually contains the
original failure's reason. -/
theorem c4_failure_wrapping :
    (∀ (cl : Cluster) (y : Yaml) (dns name : String) (args : Args) (e : PyErr) (t : Trace),
      TopLevel.call_tool_body cl y dns name args = (.error e, t) →
      TopLevel.call_tool cl y dns name args =
        ([⟨"text", jsonDumps (.obj (.cons "error" (.str (pyStrErr e)) .nil))⟩], t)) ∧
    (∀ (cl : Cluster) (y : Yaml) (dns reason full : String),
      cl.list_pod_for_all_namespaces "" = .error ⟨reason, full⟩ →
      escString reason = reason →
      TopLevel.call_tool cl y dns "get_pods" [] =
        ([⟨"text", jsonDumps (.obj (.cons "error"
            (.str ("Failed to list pods: " ++ reason)) .nil))⟩],
         [.list_pod_for_all_namespaces ""]) ∧
      ∃ pre post : List Char,
        (jsonDumps (.obj (.cons "error" (.str ("Failed to list pods: " ++ reason)) .nil))).data =
          pre ++ reason.data ++ post) := by
  constructor
  · intro cl y dns name args e t h
    unfold TopLevel.call_tool
    rw [h]
  · intro cl y dns reason full h1 h2
    constructor
    · have key : ∀ r, cl.list_pod_for_all_namespaces "" = r →
          TopLevel.call_tool cl y dns "get_pods" [] =
          (match Res.bind (Res.bind (api (.list_pod_for_all_namespaces "") r
                  (fun e => .exn ("Failed to list pods: " ++ e.reason)))
                (fun pods => Res.ok (.obj (.ofList [
                  ("pods", .arr (.ofList (pods.map TopLevel.pod_info))),
                  ("count", .int pods.length)]))))
              (fun result => Res.ok [⟨"text", jsonDumps result⟩]) with
            | (.error e, t) =>
              ([⟨"text", jsonDumps (.obj (.cons "error" (.str (pyStrErr e)) .nil))⟩], t)
            | (.ok items, t) => (items, t)) := by
        intro r hr
        subst hr
        rfl
      exact (key _ h1).trans rfl
    · refine ⟨"\x7b\n  \"error\": \"Failed to list pods: ".data, "\"\n\x7d".data, ?_⟩
      rw [jsonDumps_error_data, escString_append, h2]
      simp only [String.data_append, List.append_assoc]
      rfl

/-- Claim C4 (witness). -/
theorem c4_failure_wrapping_witness :
    (TopLevel.call_tool_body okCluster noYaml "default" "frobnicate" [] =
      (.error (.valueError ("Unknown tool: " ++ "frobnicate")), []) ∧
     TopLevel.call_tool okCluster noYaml "default" "frobnicate" [] =
      ([⟨"text", jsonDumps (.obj (.cons "error"
          (.str (pyStrErr (.valueError ("Unknown tool: " ++ "frobnicate")))) .nil))⟩], [])) ∧
    (notFoundCluster.list_pod_for_all_namespaces "" =
        .error ⟨"not found", "(404)\nReason: not found"⟩ ∧
     escString "not found" = "not found" ∧
     TopLevel.call_tool notFoundCluster noYaml "default" "get_pods" [] =
      ([⟨"text", jsonDumps (.obj (.cons "error"
          (.str ("Failed to list pods: " ++ "not found")) .nil))⟩],
       [.list_pod_for_all_namespaces ""])) :=
  ⟨⟨rfl, c4_failure_wrapping.1 okCluster noYaml "default" "frobnicate" []
      (.valueError ("Unknown tool: " ++ "frobnicate")) [] rfl⟩,
   rfl, rfl,
   (c4_failure_wrapping.2 notFoundCluster noYaml "default" "not found"
      "(404)\nReason: not found" rfl rfl).1⟩

end K3s

namespace K3s

/-- Claim C6: for every registered tool of the top-level server whose
argument bag lacks a required argument, `call_tool` fails with a `KeyError`
payload naming the first missing field, and no capability call is made. -/
theorem c6_missing_argument :
    ∀ td ∈ TopLevel.TOOLS, ∀ (args : Args) (k : String),
      firstMissing td.required args = some k →
      ∀ (cl : Cluster) (y : Yaml) (dns : String),
        TopLevel.call_tool cl y dns td.name args =
          ([⟨"text", jsonDumps (.obj (.cons "error" (.str ("\x27" ++ k ++ "\x27")) .nil))⟩], []) := by
  intro td htd args k hk cl y dns
  simp only [TopLevel.TOOLS, List.mem_cons, List.not_mem_nil, or_false] at htd
  rcases htd with rfl | rfl | rfl | rfl | rfl | rfl | rfl | rfl | rfl | rfl | rfl | rfl | rfl
  · simp [firstMissing] at hk
  ·
    cases h1 : argsFind args "pod_name" with
    | none =>
        have hkk : "pod_name" = k := by
          simpa [firstMissing, List.find?, h1] using hk
        subst hkk
        unfold TopLevel.call_tool TopLevel.call_tool_body
        rw [if_neg (by decide), if_pos rfl]
        have g1 : getItem args "pod_name" = Res.fail (.keyError "pod_name") := by
          unfold getItem; rw [h1]
        simp only [g1, Res.bind_ok, Res.bind_fail]
        rfl
    | some v1 =>
        cases h2 : argsFind args "namespace" with
        | none =>
            have hkk : "namespace" = k := by
              simpa [firstMissing, List.find?, h1, h2] using hk
            subst hkk
            unfold TopLevel.call_tool TopLevel.call_tool_body
            rw [if_neg (by decide), if_pos rfl]
            have g1 : getItem args "pod_name" = Res.ok v1 := by
              unfold getItem; rw [h1]
            have g2 : getItem args "namespace" = Res.fail (.keyError "namespace") := by
              unfold getItem; rw [h2]
            simp only [g1, g2, Res.bind_ok, Res.bind_fail]
            rfl
        | some v2 =>
            simp [firstMissing, List.find?, h1, h2] at hk
  ·
    cases h1 : argsFind args "pod_name" with
    | none =>
        have hkk : "pod_name" = k := by
          simpa [firstMissing, List.find?, h1] using hk
        subst hkk
        unfold TopLevel.call_tool TopLevel.call_tool_body
        rw [if_neg (by decide), if_neg (by decide), if_pos rfl]
        have g1 : getItem args "pod_name" = Res.fail (.keyError "pod_name") := by
          unfold getItem; rw [h1]
        simp only [g1, Res.bind_ok, Res.bind_fail]
        rfl
    | some v1 =>
        cases h2 : argsFind args "namespace" with
        | none =>
            have hkk : "namespace" = k := by
              simpa [firstMissing, List.find?, h1, h2] using hk
            subst hkk
            unfold TopLevel.call_tool TopLevel.call_tool_body
            rw [if_neg (by decide), if_neg (by decide), if_pos rfl]
            have g1 : getItem args "pod_name" = Res.ok v1 := by
              unfold getItem; rw [h1]
            have g2 : getItem args "namespace" = Res.fail (.keyError "namespace") := by
              unfold getItem; rw [h2]
            simp only [g1, g2, Res.bind_ok, Res.bind_fail]
            rfl
        | some v2 =>
            cases h3 : argsFind args "command" with
            | none =>
                have hkk : "command" = k := by
                  simpa [firstMissing, List.find?, h1, h2, h3] using hk
                subst hkk
                unfold TopLevel.call_tool TopLevel.call_tool_body
                rw [if_neg (by decide), if_neg (by decide), if_pos rfl]
                have g1 : getItem args "pod_name" = Res.ok v1 := by
                  unfold getItem; rw [h1]
                have g2 : getItem args "namespace" = Res.ok v2 := by
                  unfold getItem; rw [h2]
                have g3 : getItem args "command" = Res.fail (.keyError "command") := by
                  unfold getItem; rw [h3]
                simp only [g1, g2, g3, Res.bind_ok, Res.bind_fail]
                rfl
            | some v3 =>
                simp [firstMissing, List.find?, h1, h2, h3] at hk
  ·
    cases h1 : argsFind args "pod_name" with
    | none =>
        have hkk : "pod_name" = k := by
          simpa [firstMissing, List.find?, h1] using hk
        subst hkk
        unfold TopLevel.call_tool TopLevel.call_tool_body
        rw [if_neg (by decide), if_neg (by decide), if_neg (by decide), if_pos rfl]
        have g1 : getItem args "pod_name" = Res.fail (.keyError "pod_name") := by
          unfold getItem; rw [h1]
        simp only [g1, Res.bind_ok, Res.bind_fail]
        rfl
    | some v1 =>
        cases h2 : argsFind args "namespace" with
        | none =>
            have hkk : "namespace" = k := by
              simpa [firstMissing, List.find?, h1, h2] using hk
            subst hkk
            unfold TopLevel.call_tool TopLevel.call_tool_body
            rw [if_neg (by decide), if_neg (by decide), if_neg (by decide), if_pos rfl]
            have g1 : getItem args "pod_name" = Res.ok v1 := by
              unfold getItem; rw [h1]
            have g2 : getItem args "namespace" = Res.fail (.keyError "namespace") := by
              unfold getItem; rw [h2]
            simp only [g1, g2, Res.bind_ok, Res.bind_fail]
            rfl
        | some v2 =>
            simp [firstMissing, List.find?, h1, h2] at hk
  · simp [firstMissing] at hk
  ·
    cases h1 : argsFind args "name" with
    | none =>
        have hkk : "name" = k := by
          simpa [firstMissing, List.find?, h1] using hk
        subst hkk
        unfold TopLevel.call_tool TopLevel.call_tool_body
        rw [if_neg (by decide), if_neg (by decide), if_neg (by decide), if_neg (by decide), if_neg (by decide), if_pos rfl]
        have g1 : getItem args "name" = Res.fail (.keyError "name") := by
          unfold getItem; rw [h1]
        simp only [g1, Res.bind_ok, Res.bind_fail]
        rfl
    | some v1 =>
        cases h2 : argsFind args "namespace" with
        | none =>
            have hkk : "namespace" = k := by
              simpa [firstMissing, List.find?, h1, h2] using hk
            subst hkk
            unfold TopLevel.call_tool TopLevel.call_tool_body
            rw [if_neg (by decide), if_neg (by decide), if_neg (by decide), if_neg (by decide), if_neg (by decide), if_pos rfl]
            have g1 : getItem args "name" = Res.ok v1 := by
              unfold getItem; rw [h1]
            have g2 : getItem args "namespace" = Res.fail (.keyError "namespace") := by
              unfold getItem; rw [h2]
            simp only [g1, g2, Res.bind_ok, Res.bind_fail]
            rfl
        | some v2 =>
            simp [firstMissing, List.find?, h1, h2] at hk
  ·
    cases h1 : argsFind args "name" with
    | none =>
        have hkk : "name" = k := by
          simpa [firstMissing, List.find?, h1] using hk
        subst hkk
        unfold TopLevel.call_tool TopLevel.call_tool_body
        rw [if_neg (by decide), if_neg (by decide), if_neg (by decide), if_neg (by decide), if_neg (by decide), if_neg (by decide), if_pos rfl]
        have g1 : getItem args "name" = Res.fail (.keyError "name") := by
          unfold getItem; rw [h1]
        simp only [g1, Res.bind_ok, Res.bind_fail]
        rfl
    | some v1 =>
        cases h2 : argsFind args "namespace" with
        | none =>
            have hkk : "namespace" = k := by
              simpa [firstMissing, List.find?, h1, h2] using hk
            subst hkk
            unfold TopLevel.call_tool TopLevel.call_tool_body
            rw [if_neg (by decide), if_neg (by decide), if_neg (by decide), if_neg (by decide), if_neg (by decide), if_neg (by decide), if_pos rfl]
            have g1 : getItem args "name" = Res.ok v1 := by
              unfold getItem; rw [h1]
            have g2 : getItem args "namespace" = Res.fail (.keyError "namespace") := by
              unfold getItem; rw [h2]
            simp only [g1, g2, Res.bind_ok, Res.bind_fail]
            rfl
        | some v2 =>
            cases h3 : argsFind args "replicas" with
            | none =>
                have hkk : "replicas" = k := by
                  simpa [firstMissing, List.find?, h1, h2, h3] using hk
                subst hkk
                unfold TopLevel.call_tool TopLevel.call_tool_body
                rw [if_neg (by decide), if_neg (by decide), if_neg (by decide), if_neg (by decide), if_neg (by decide), if_neg (by decide), if_pos rfl]
                have g1 : getItem args "name" = Res.ok v1 := by
                  unfold getItem; rw [h1]
                have g2 : getItem args "namespace" = Res.ok v2 := by
                  unfold getItem; rw [h2]
                have g3 : getItem args "replicas" = Res.fail (.keyError "replicas") := by
                  unfold getItem; rw [h3]
                simp only [g1, g2, g3, Res.bind_ok, Res.bind_fail]
                rfl
            | some v3 =>
                simp [firstMissing, List.find?, h1, h2, h3] at hk
  · simp [firstMissing] at hk
  · simp [firstMissing] at hk
  · simp [firstMissing] at hk
  · simp [firstMissing] at hk
  ·
    cases h1 : argsFind args "manifest_yaml" with
    | none =>
        have hkk : "manifest_yaml" = k := by
          simpa [firstMissing, List.find?, h1] using hk
        subst hkk
        unfold TopLevel.call_tool TopLevel.call_tool_body
        rw [if_neg (by decide), if_neg (by decide), if_neg (by decide), if_neg (by decide), if_neg (by decide), if_neg (by decide), if_neg (by decide), if_neg (by decide), if_neg (by decide), if_neg (by decide), if_neg (by decide), if_pos rfl]
        have g1 : getItem args "manifest_yaml" = Res.fail (.keyError "manifest_yaml") := by
          unfold getItem; rw [h1]
        simp only [g1, Res.bind_ok, Res.bind_fail]
        rfl
    | some v1 =>
        simp [firstMissing, List.find?, h1] at hk
  ·
    cases h1 : argsFind args "kind" with
    | none =>
        have hkk : "kind" = k := by
          simpa [firstMissing, List.find?, h1] using hk
        subst hkk
        unfold TopLevel.call_tool TopLevel.call_tool_body
        rw [if_neg (by decide), if_neg (by decide), if_neg (by decide), if_neg (by decide), if_neg (by decide), if_neg (by decide), if_neg (by decide), if_neg (by decide), if_neg (by decide), if_neg (by decide), if_neg (by decide), if_neg (by decide), if_pos rfl]
        have g1 : getItem args "kind" = Res.fail (.keyError "kind") := by
          unfold getItem; rw [h1]
        simp only [g1, Res.bind_ok, Res.bind_fail]
        rfl
    | some v1 =>
        cases h2 : argsFind args "name" with
        | none =>
            have hkk : "name" = k := by
              simpa [firstMissing, List.find?, h1, h2] using hk
            subst hkk
            unfold TopLevel.call_tool TopLevel.call_tool_body
            rw [if_neg (by decide), if_neg (by decide), if_neg (by decide), if_neg (by decide), if_neg (by decide), if_neg (by decide), if_neg (by decide), if_neg (by decide), if_neg (by decide), if_neg (by decide), if_neg (by decide), if_neg (by decide), if_pos rfl]
            have g1 : getItem args "kind" = Res.ok v1 := by
              unfold getItem; rw [h1]
            have g2 : getItem args "name" = Res.fail (.keyError "name") := by
              unfold getItem; rw [h2]
            simp only [g1, g2, Res.bind_ok, Res.bind_fail]
            rfl
        | some v2 =>
            cases h3 : argsFind args "namespace" with
            | none =>
                have hkk : "namespace" = k := by
                  simpa [firstMissing, List.find?, h1, h2, h3] using hk
                subst hkk
                unfold TopLevel.call_tool TopLevel.call_tool_body
                rw [if_neg (by decide), if_neg (by decide), if_neg (by decide), if_neg (by decide), if_neg (by decide), if_neg (by decide), if_neg (by decide), if_neg (by decide), if_neg (by decide), if_neg (by decide), if_neg (by decide), if_neg (by decide), if_pos rfl]
                have g1 : getItem args "kind" = Res.ok v1 := by
                  unfold getItem; rw [h1]
                have g2 : getItem args "name" = Res.ok v2 := by
                  unfold getItem; rw [h2]
                have g3 : getItem args "namespace" = Res.fail (.keyError "namespace") := by
                  unfold getItem; rw [h3]
                simp only [g1, g2, g3, Res.bind_ok, Res.bind_fail]
                rfl
            | some v3 =>
                simp [firstMissing, List.find?, h1, h2, h3] at hk

end K3s

namespace K3s

/-- Claim C6 (witness): `scale_deployment` invoked without `namespace`. -/
theorem c6_missing_argument_witness :
    (⟨"scale_deployment", ["name", "namespace", "replicas"],
      ["name", "namespace", "replicas"]⟩ : ToolDescr) ∈ TopLevel.TOOLS ∧
    firstMissing ["name", "namespace", "replicas"]
      [("name", .str "web"), ("replicas", .int 3)] = some "namespace" ∧
    TopLevel.call_tool okCluster noYaml "default" "scale_deployment"
      [("name", .str "web"), ("replicas", .int 3)] =
      ([⟨"text", jsonDumps (.obj (.cons "error" (.str ("\x27" ++ "namespace" ++ "\x27")) .nil))⟩],
       []) :=
  ⟨by decide, rfl,
   c6_missing_argument ⟨"scale_deployment", ["name", "namespace", "replicas"],
      ["name", "namespace", "replicas"]⟩ (by decide)
    [("name", .str "web"), ("replicas", .int 3)] "namespace" rfl okCluster noYaml "default"⟩

/-- Claim C5: for every operation name outside the tool registry, both
routers return a single Failure payload naming the unknown tool, and the
capability trace is empty — no cluster call is ever made. -/
theorem c5_unknown_operation :
    ∀ (name : String), name ∉ TopLevel.TOOLS.map ToolDescr.name →
    ∀ (args : Args) (cl : Cluster) (y : Yaml) (dns : String),
      TopLevel.call_tool cl y dns name args =
        ([⟨"text", jsonDumps (.obj (.cons "error" (.str ("Unknown tool: " ++ name)) .nil))⟩], []) ∧
      SrcLayout.call_tool cl y dns name args =
        ([⟨"text", "Error executing " ++ name ++ ": " ++ ("Unknown tool: " ++ name)⟩], []) := by
  intro name h args cl y dns
  simp only [TopLevel.TOOLS, List.map_cons, List.map_nil, List.mem_cons, List.not_mem_nil,
    or_false, not_or] at h
  obtain ⟨n1, n2, n3, n4, n5, n6, n7, n8, n9, n10, n11, n12, n13⟩ := h
  constructor
  · unfold TopLevel.call_tool TopLevel.call_tool_body
    rw [if_neg n1, if_neg n2, if_neg n3, if_neg n4, if_neg n5, if_neg n6, if_neg n7, if_neg n8,
      if_neg n9, if_neg n10, if_neg n11, if_neg n12, if_neg n13]
    rfl
  · unfold SrcLayout.call_tool SrcLayout.call_tool_body SrcLayout.route
    rw [if_neg n1, if_neg n5, if_neg n6, if_neg n8, if_neg n9, if_neg n7, if_neg n4, if_neg n2,
      if_neg n3, if_neg n12, if_neg n13, if_neg n11, if_neg n10]
    rfl

/-- Claim C5 (witness). -/
theorem c5_unknown_operation_witness :
    ("get_ingresses" ∉ TopLevel.TOOLS.map ToolDescr.name) ∧
    TopLevel.call_tool okCluster noYaml "default" "get_ingresses" [] =
      ([⟨"text", jsonDumps (.obj (.cons "error"
          (.str ("Unknown tool: " ++ "get_ingresses")) .nil))⟩], []) ∧
    SrcLayout.call_tool okCluster noYaml "default" "get_ingresses" [] =
      ([⟨"text", "Error executing " ++ "get_ingresses" ++ ": " ++
          ("Unknown tool: " ++ "get_ingresses")⟩], []) :=
  ⟨by decide,
   (c5_unknown_operation "get_ingresses" (by decide) [] okCluster noYaml "default").1,
   (c5_unknown_operation "get_ingresses" (by decide) [] okCluster noYaml "default").2⟩

/-- Claim C8: successful results are serialized into a single text payload —
verbatim for the already-textual `get_logs` and `execute_command` outputs
(in both routers), and `json.dumps`-encoded for every other tool of the
top-level router. -/
theorem c8_serialization :
    (∀ (cl : Cluster) (y : Yaml) (dns pn ns L : String),
      cl.read_namespaced_pod_log pn ns none 100 = .ok L →
      TopLevel.call_tool cl y dns "get_logs" [("pod_name", .str pn), ("namespace", .str ns)] =
        ([⟨"text", L⟩], [.read_namespaced_pod_log pn ns none 100])) ∧
    (∀ (cl : Cluster) (y : Yaml) (dns pn ns c O : String),
      cl.pod_exec pn ns [c] none = .ok O →
      TopLevel.call_tool cl y dns "execute_command"
        [("pod_name", .str pn), ("namespace", .str ns), ("command", .arr (.cons (.str c) .nil))] =
        ([⟨"text", O⟩], [.pod_exec pn ns [c] none])) ∧
    (∀ (cl : Cluster) (y : Yaml) (dns name : String) (args : Args),
      name ≠ "get_logs" → name ≠ "execute_command" →
      ∀ (items : List TextContent) (t : Trace),
        TopLevel.call_tool_body cl y dns name args = (.ok items, t) →
        ∃ j, items = [⟨"text", jsonDumps j⟩]) ∧
    (∀ (cl : Cluster) (y : Yaml) (dns pn L : String),
      cl.read_namespaced_pod_log pn dns none 100 = .ok L →
      SrcLayout.call_tool cl y dns "get_logs" [("pod_name", .str pn)] =
        ([⟨"text", L⟩], [.read_namespaced_pod_log pn dns none 100])) := by
  refine ⟨?_, ?_, ?_, ?_⟩
  · intro cl y dns pn ns L h
    have key : ∀ r, cl.read_namespaced_pod_log pn ns none 100 = r →
        TopLevel.call_tool cl y dns "get_logs" [("pod_name", .str pn), ("namespace", .str ns)] =
        (match Res.bind (api (.read_namespaced_pod_log pn ns none 100) r
              (fun e => .exn ("Failed to get logs: " ++ e.reason)))
            (fun logs => Res.ok [⟨"text", logs⟩]) with
          | (.error e, t) =>
            ([⟨"text", jsonDumps (.obj (.cons "error" (.str (pyStrErr e)) .nil))⟩], t)
          | (.ok items, t) => (items, t)) := by
      intro r hr
      subst hr
      rfl
    exact (key _ h).trans rfl
  · intro cl y dns pn ns c O h
    have key : ∀ r, cl.pod_exec pn ns [c] none = r →
        TopLevel.call_tool cl y dns "execute_command"
          [("pod_name", .str pn), ("namespace", .str ns), ("command", .arr (.cons (.str c) .nil))] =
        (match Res.bind (api (.pod_exec pn ns [c] none) r
              (fun e => .exn ("Failed to execute command: " ++ e.reason)))
            (fun output => Res.ok [⟨"text", output⟩]) with
          | (.error e, t) =>
            ([⟨"text", jsonDumps (.obj (.cons "error" (.str (pyStrErr e)) .nil))⟩], t)
          | (.ok items, t) => (items, t)) := by
      intro r hr
      subst hr
      rfl
    exact (key _ h).trans rfl
  · intro cl y dns name args hL hE items t hb
    exact TopLevel.body_jsonout cl y dns name args hL hE items (by rw [hb])
  · intro cl y dns pn L h
    have key : ∀ r, cl.read_namespaced_pod_log pn dns none 100 = r →
        SrcLayout.call_tool cl y dns "get_logs" [("pod_name", .str pn)] =
        (match Res.bind (api (.read_namespaced_pod_log pn dns none 100) r
              (fun e => .exn ("Failed to get logs for pod " ++ pn ++ ": " ++ e.full)))
            (fun result => Res.ok [⟨"text", result⟩]) with
          | (.error e, t) =>
            ([⟨"text", "Error executing " ++ "get_logs" ++ ": " ++ pyStrErr e⟩], t)
          | (.ok items, t) => (items, t)) := by
      intro r hr
      subst hr
      rfl
    exact (key _ h).trans rfl

/-- Claim C8 (witness). -/
theorem c8_serialization_witness :
    (logsCluster.read_namespaced_pod_log "p" "ns" none 100 = .ok "line-1\nline-2" ∧
     TopLevel.call_tool logsCluster noYaml "default" "get_logs"
        [("pod_name", .str "p"), ("namespace", .str "ns")] =
        ([⟨"text", "line-1\nline-2"⟩], [.read_namespaced_pod_log "p" "ns" none 100])) ∧
    (logsCluster.pod_exec "p" "ns" ["ls"] none = .ok "cmd-output" ∧
     TopLevel.call_tool logsCluster noYaml "default" "execute_command"
        [("pod_name", .str "p"), ("namespace", .str "ns"),
         ("command", .arr (.cons (.str "ls") .nil))] =
        ([⟨"text", "cmd-output"⟩], [.pod_exec "p" "ns" ["ls"] none])) ∧
    (("get_namespaces" : String) ≠ "get_logs" ∧ ("get_namespaces" : String) ≠ "execute_command" ∧
     TopLevel.call_tool_body okCluster noYaml "default" "get_namespaces" [] =
       (.ok [⟨"text", jsonDumps (.obj (.ofList [("namespaces", .arr .nil), ("count", .int 0)]))⟩],
        [.list_namespace]) ∧
     ∃ j, [(⟨"text", jsonDumps (.obj (.ofList [("namespaces", .arr .nil), ("count", .int 0)]))⟩ :
        TextContent)] = [⟨"text", jsonDumps j⟩]) ∧
    (logsCluster.read_namespaced_pod_log "p" "default" none 100 = .ok "line-1\nline-2" ∧
     SrcLayout.call_tool logsCluster noYaml "default" "get_logs" [("pod_name", .str "p")] =
        ([⟨"text", "line-1\nline-2"⟩], [.read_namespaced_pod_log "p" "default" none 100])) :=
  ⟨⟨rfl, c8_serialization.1 logsCluster noYaml "default" "p" "ns" "line-1\nline-2" rfl⟩,
   ⟨rfl, c8_serialization.2.1 logsCluster noYaml "default" "p" "ns" "ls" "cmd-output" rfl⟩,
   ⟨by decide, by decide, rfl,
    c8_serialization.2.2.1 okCluster noYaml "default" "get_namespaces" []
      (by decide) (by decide)
      [⟨"text", jsonDumps (.obj (.ofList [("namespaces", .arr .nil), ("count", .int 0)]))⟩]
      [.list_namespace] rfl⟩,
   ⟨rfl, c8_serialization.2.2.2 logsCluster noYaml "default" "p" "line-1\nline-2" rfl⟩⟩

/-- Claim C9: for every tool name and argument bag, one invocation of
`call_tool` produces exactly one text payload, on every path of both
routers. -/
theorem c9_single_result :
    ∀ (name : String) (args : Args) (cl : Cluster) (y : Yaml) (dns : String),
      ((TopLevel.call_tool cl y dns name args).1).length = 1 ∧
      ((SrcLayout.call_tool cl y dns name args).1).length = 1 := by
  intro name args cl y dns
  constructor
  · unfold TopLevel.call_tool
    rcases hb : TopLevel.call_tool_body cl y dns name args with ⟨ex, t⟩
    cases ex with
    | error e => rfl
    | ok items => exact TopLevel.body_single cl y dns name args items (by rw [hb])
  · unfold SrcLayout.call_tool SrcLayout.call_tool_body
    rcases hb : SrcLayout.route cl y dns name (SrcLayout.norm_namespace args dns) with ⟨ex, t⟩
    cases ex with
    | error e => rfl
    | ok items =>
        exact SrcLayout.route_single cl y dns name (SrcLayout.norm_namespace args dns) items
          (by rw [hb])

end K3s
